import Mathlib

/-!
Verification development for the RHAS v2 rule-based disease-classification
pipeline (`advanced_disease_classifier.py`, `enhanced_multilingual_symptom_detector.py`,
`environmental_geographic_analyzer.py`).

The Python code is shallowly embedded: floats become exact rationals (`ℚ`,
decimal literals read exactly), dicts become association lists in insertion
order, and the only fallible operation on the classification path (the float
division in `calculate_confidence_scores`, which raises `ZeroDivisionError`
when the top probability is zero) is modelled with `Except`, matching the
`try`/`except` at the top of `classify_disease`.  The two ambient effects the
source reads are passed as explicit parameters: the current month
(`datetime.now().month`) and, for the weather simulator, the process's string
hash function (`hash(str(·))`), which is fixed for the lifetime of a process.

Python regular-expression searches used by the extractor are literal
alternations (with `\b` word boundaries, `\s+` gaps, optional trailing
letters written out as separate alternatives, and `\d+` capture groups);
they are embedded by a direct character-level scanner below.  `\w` is
modelled on its ASCII part (letters, digits, underscore), which agrees with
Python on the texts handled here.
-/

attribute [local semireducible] Rat.add Rat.mul Rat.inv Rat.sub Rat.ofScientific

/-! ## String utilities (Python `str.lower`, substring `in`) -/

/-- ASCII lowercasing of one character. -/
def lowerChar (c : Char) : Char :=
  if 65 ≤ c.toNat ∧ c.toNat ≤ 90 then Char.ofNat (c.toNat + 32) else c

/-- Python's `text.lower()` (the keyword tables only use characters whose
lowercasing is the ASCII one). -/
def lowerStr (s : String) : String := String.mk (s.toList.map lowerChar)

/-- `isSubListAt needle hay`: `needle` is a prefix of `hay`. -/
def isSubListAt : List Char → List Char → Bool
  | [], _ => true
  | _ :: _, [] => false
  | a :: as, b :: bs => a == b && isSubListAt as bs

/-- Python's substring test `needle in hay` on lowered character lists. -/
def containsSub (hay needle : List Char) : Bool :=
  match hay with
  | [] => needle.isEmpty
  | _ :: rest => isSubListAt needle hay || containsSub rest needle

/-- Characters counted as `\w` by the embedded word-boundary check
(ASCII letters, digits and underscore). -/
def isWordChar (c : Char) : Bool := c.isAlphanum || c == '_'

/-- Characters counted as `\s` (the whitespace the inputs use). -/
def isSpaceChar (c : Char) : Bool := c == ' ' || c == '\t' || c == '\n' || c == '\r'

/-- One regex alternative: literal segments joined by `\s+`. -/
abbrev RegexAlt := List (List Char)

/-- Consume one-or-more whitespace characters (`\s+`). -/
def skipWs1 : List Char → Option (List Char)
  | c :: cs => if isSpaceChar c then some (cs.dropWhile isSpaceChar) else none
  | [] => none

/-- Consume a literal segment. -/
def dropSeg : List Char → List Char → Option (List Char)
  | [], s => some s
  | a :: as, c :: cs => if a == c then dropSeg as cs else none
  | _ :: _, [] => none

/-- Match the segments of one alternative (joined by `\s+`) at the head of
the text, returning the remainder. -/
def dropAlt : RegexAlt → List Char → Option (List Char)
  | [], s => some s
  | [seg], s => dropSeg seg s
  | seg :: rest, s =>
    match dropSeg seg s with
    | none => none
    | some s1 =>
      match skipWs1 s1 with
      | none => none
      | some s2 => dropAlt rest s2

/-- What the pattern requires right after the matched alternative:
`wsReq` for a trailing `\s+`, `bReq` for a trailing `\b`. -/
inductive TailReq | wsReq | bReq
deriving DecidableEq, Repr

def tailOk : TailReq → List Char → Bool
  | .wsReq, c :: _ => isSpaceChar c
  | .wsReq, [] => false
  | .bReq, c :: _ => !isWordChar c
  | .bReq, [] => true

/-- Does some alternative match at the head of `s`, with the tail requirement? -/
def altsMatchHere (alts : List RegexAlt) (tr : TailReq) (s : List Char) : Bool :=
  alts.any (fun a =>
    match dropAlt a s with
    | some rest => tailOk tr rest
    | none => false)

/-- `re.search` for a pattern `\b(alt₁|…|altₙ)τ` (τ the tail requirement):
scan every position of the text whose left context is a word boundary. -/
def searchPattern (alts : List RegexAlt) (tr : TailReq) : Option Char → List Char → Bool
  | prev, s =>
    let bOk := match prev with
      | none => true
      | some c => !isWordChar c
    (bOk && altsMatchHere alts tr s) ||
      match s with
      | [] => false
      | c :: cs => searchPattern alts tr (some c) cs

/-- Maximal digit run at the head of the text (`\d+`), with its value. -/
def digitsAt : List Char → Option (Nat × List Char)
  | c :: cs =>
    if c.isDigit then
      let run := (c :: cs).takeWhile Char.isDigit
      let rest := (c :: cs).dropWhile Char.isDigit
      some (run.foldl (fun n d => n * 10 + (d.toNat - 48)) 0, rest)
    else none
  | [] => none

/-- `re.search` for `(\d+)\s+(unit₁|unit₂)…`: leftmost match, returning the
captured number. -/
def searchNumUnit (units : List (List Char)) : List Char → Option Nat
  | [] => none
  | c :: cs =>
    (match digitsAt (c :: cs) with
     | some (n, rest) =>
       (match skipWs1 rest with
        | some rest2 => if units.any (fun u => (dropSeg u rest2).isSome) then some n else none
        | none => none)
     | none => none).orElse (fun _ => searchNumUnit units cs)

/-- `re.search` for `lead\s+(\d+)\s+unit`, returning the captured number
(no word-boundary anchors, as in the source patterns). -/
def searchLeadNumUnit (lead unit : List Char) : List Char → Option Nat
  | [] => none
  | c :: cs =>
    (match dropSeg lead (c :: cs) with
     | some r1 =>
       (match skipWs1 r1 with
        | some r2 =>
          (match digitsAt r2 with
           | some (n, r3) =>
             (match skipWs1 r3 with
              | some r4 => if (dropSeg unit r4).isSome then some n else none
              | none => none)
           | none => none)
        | none => none)
     | none => none).orElse (fun _ => searchLeadNumUnit lead unit cs)

/-- `re.search` for `since\s+(yesterday|1\s+day)`. -/
def searchSinceYesterday : List Char → Bool
  | [] => false
  | c :: cs =>
    (match dropSeg ("since".toList) (c :: cs) with
     | some r1 =>
       match skipWs1 r1 with
       | some r2 =>
         (dropSeg ("yesterday".toList) r2).isSome ||
           (match dropSeg ("1".toList) r2 with
            | some r3 =>
              (match skipWs1 r3 with
               | some r4 => (dropSeg ("day".toList) r4).isSome
               | none => false)
            | none => false)
       | none => false
     | none => false) || searchSinceYesterday cs

/-! ## Data model (`advanced_disease_classifier.py`) -/

/-- `SymptomFeature` dataclass. -/
structure SymptomFeature where
  name : String
  severity : ℚ
  duration_hours : Int
  progression : String
  confidence : ℚ
  temporal_pattern : String
deriving DecidableEq, Repr

/-- `PatientContext` dataclass (`location` and `vaccination_status` are the
source's string-keyed dicts). -/
structure PatientContext where
  age : Int
  gender : String
  occupation : String
  location : List (String × ℚ)
  household_size : Int
  water_source : String
  sanitation_level : Int
  recent_travel : Bool
  vaccination_status : List (String × Bool)
deriving DecidableEq, Repr

/-- `EnvironmentalContext` dataclass. -/
structure EnvironmentalContext where
  season : String
  temperature : ℚ
  humidity : ℚ
  rainfall_7day : ℚ
  water_quality_score : ℚ
  air_quality_index : Int
  population_density : Int
deriving DecidableEq, Repr

/-- `DiseaseSignature` dataclass.  The `temporal_pattern` metadata dict is
omitted: no function modelled here ever reads it. -/
structure DiseaseSignature where
  primary_symptoms : List String
  secondary_symptoms : List String
  environmental_correlation : List (String × ℚ)
  demographic_risk : List (String × ℚ)
  exclusionary_symptoms : List String
  pathognomonic_signs : List String
  incubation_period : Int × Int
  contagiousness : ℚ
deriving DecidableEq, Repr

/-- `_initialize_disease_signatures` (insertion order preserved). -/
def disease_signatures : List (String × DiseaseSignature) := [
  ("cholera", {
    primary_symptoms := ["watery_diarrhea", "severe_dehydration", "rice_water_stools"],
    secondary_symptoms := ["vomiting", "rapid_fluid_loss", "muscle_cramps"],
    environmental_correlation := [("rainfall_spike", (8/10)), ("water_contamination", (9/10)), ("poor_sanitation", (7/10)), ("flooding", (6/10))],
    demographic_risk := [("elderly", (8/10)), ("children_under_5", (9/10)), ("adults", (6/10)), ("malnutrition", (7/10)), ("immunocompromised", (8/10))],
    exclusionary_symptoms := ["constipation", "high_fever"],
    pathognomonic_signs := ["rice_water_stools", "sunken_eyes"],
    incubation_period := (2, 120),
    contagiousness := (7/10) }),
  ("typhoid", {
    primary_symptoms := ["sustained_fever", "headache", "abdominal_pain", "rose_spots"],
    secondary_symptoms := ["constipation", "diarrhea", "fatigue", "loss_appetite"],
    environmental_correlation := [("poor_sanitation", (8/10)), ("food_contamination", (7/10)), ("overcrowding", (6/10)), ("summer_season", (7/10))],
    demographic_risk := [("young_adults", (8/10)), ("school_age", (7/10)), ("food_handlers", (9/10)), ("travelers", (6/10))],
    exclusionary_symptoms := ["watery_diarrhea", "rice_water_stools"],
    pathognomonic_signs := ["rose_spots", "step_ladder_fever"],
    incubation_period := (168, 720),
    contagiousness := (3/10) }),
  ("malaria", {
    primary_symptoms := ["cyclic_fever", "chills", "sweats", "headache"],
    secondary_symptoms := ["muscle_aches", "fatigue", "nausea", "vomiting"],
    environmental_correlation := [("stagnant_water", (9/10)), ("monsoon_season", (8/10)), ("rural_areas", (7/10)), ("forest_proximity", (6/10))],
    demographic_risk := [("children_under_5", (9/10)), ("pregnant_women", (8/10)), ("travelers", (7/10)), ("outdoor_workers", (6/10))],
    exclusionary_symptoms := ["continuous_fever", "diarrhea"],
    pathognomonic_signs := ["spleen_enlargement", "anemia"],
    incubation_period := (168, 720),
    contagiousness := 0 }),
  ("dengue", {
    primary_symptoms := ["high_fever", "severe_headache", "eye_pain", "muscle_pain"],
    secondary_symptoms := ["rash", "nausea", "vomiting", "bleeding"],
    environmental_correlation := [("water_storage", (8/10)), ("urban_areas", (7/10)), ("monsoon_post", (8/10)), ("breeding_containers", (9/10))],
    demographic_risk := [("all_ages", (6/10)), ("urban_dwellers", (7/10)), ("repeat_infection", (9/10))],
    exclusionary_symptoms := ["diarrhea", "respiratory_symptoms"],
    pathognomonic_signs := ["platelet_drop", "tourniquet_test_positive"],
    incubation_period := (96, 336),
    contagiousness := 0 }),
  ("hepatitis_a", {
    primary_symptoms := ["jaundice", "fatigue", "abdominal_pain", "nausea"],
    secondary_symptoms := ["loss_appetite", "low_fever", "dark_urine", "pale_stool"],
    environmental_correlation := [("poor_sanitation", (8/10)), ("contaminated_water", (7/10)), ("food_contamination", (6/10))],
    demographic_risk := [("children", (7/10)), ("travelers", (6/10)), ("food_handlers", (8/10))],
    exclusionary_symptoms := ["high_fever", "diarrhea"],
    pathognomonic_signs := ["jaundice", "enlarged_liver"],
    incubation_period := (360, 1200),
    contagiousness := (4/10) }),
  ("covid19", {
    primary_symptoms := ["fever", "dry_cough", "shortness_breath", "loss_taste_smell"],
    secondary_symptoms := ["fatigue", "body_aches", "sore_throat", "headache"],
    environmental_correlation := [("crowded_spaces", (8/10)), ("poor_ventilation", (7/10)), ("winter_season", (6/10))],
    demographic_risk := [("elderly", (9/10)), ("comorbidities", (8/10)), ("all_ages", (5/10))],
    exclusionary_symptoms := [],
    pathognomonic_signs := ["loss_taste_smell", "ground_glass_opacity"],
    incubation_period := (24, 336),
    contagiousness := (9/10) })
]

/-- `_initialize_seasonal_matrix`: months (Jan–Dec) × diseases, row order
cholera, typhoid, malaria, dengue, hepatitis_a, covid19. -/
def seasonal_probability_matrix : List (List ℚ) := [
  [(15/100), (2/10), (25/100), (3/10), (35/100), (4/10), (35/100), (3/10), (25/100), (2/10), (18/100), (15/100)],
  [(2/10), (25/100), (3/10), (35/100), (4/10), (35/100), (3/10), (25/100), (22/100), (2/10), (18/100), (18/100)],
  [(1/10), (15/100), (2/10), (25/100), (2/10), (35/100), (45/100), (5/10), (4/10), (3/10), (2/10), (15/100)],
  [(5/100), (1/10), (15/100), (2/10), (25/100), (35/100), (4/10), (45/100), (35/100), (25/100), (15/100), (1/10)],
  [(25/100), (3/10), (35/100), (4/10), (45/100), (35/100), (25/100), (2/10), (25/100), (3/10), (25/100), (25/100)],
  [(4/10), (35/100), (3/10), (25/100), (25/100), (3/10), (35/100), (3/10), (35/100), (4/10), (45/100), (5/10)]
]

/-- `self.seasonal_probability_matrix[disease_idx][month]`. -/
def seasonalProb (disease_idx month : Nat) : ℚ :=
  (seasonal_probability_matrix.getD disease_idx []).getD month 0

/-- One value of `_initialize_symptom_keywords`. -/
structure SymptomKeywordEntry where
  keywords : List String
  severity_indicators : List (String × ℚ)
deriving DecidableEq, Repr

/-- `_initialize_symptom_keywords` (insertion order preserved). -/
def symptom_keywords : List (String × SymptomKeywordEntry) := [
  ("watery_diarrhea", ⟨["watery diarrhea", "watery stool", "liquid stool", "profuse diarrhea"],
    [("profuse", 9), ("severe", 8), ("frequent", 7), ("watery", 6)]⟩),
  ("rice_water_stools", ⟨["rice water stool", "rice-water", "colorless stool", "odorless diarrhea"],
    [("rice water", 10), ("colorless", 8)]⟩),
  ("diarrhea", ⟨["diarrhea", "loose stool", "loose motion", "दस्त", "पेचिश"],
    [("bloody", 8), ("frequent", 6), ("loose", 4)]⟩),
  ("constipation", ⟨["constipation", "difficulty passing stool", "hard stool"],
    [("severe", 6), ("chronic", 5)]⟩),
  ("vomiting", ⟨["vomiting", "throwing up", "उल्टी", "vómito"],
    [("projectile", 8), ("continuous", 7), ("frequent", 6)]⟩),
  ("nausea", ⟨["nausea", "feel sick", "queasy", "मतली", "náusea"],
    [("severe", 6), ("constant", 5)]⟩),
  ("abdominal_pain", ⟨["stomach pain", "abdominal pain", "belly pain", "stomach ache"],
    [("severe", 8), ("cramping", 6), ("mild", 3)]⟩),
  ("sustained_fever", ⟨["continuous fever", "persistent fever", "sustained fever", "high fever for days"],
    [("high", 8), ("continuous", 7), ("persistent", 7)]⟩),
  ("cyclic_fever", ⟨["fever comes and goes", "intermittent fever", "fever cycles", "periodic fever"],
    [("high cycles", 8), ("regular pattern", 6)]⟩),
  ("high_fever", ⟨["high fever", "very hot", "burning fever", "तेज़ बुखार", "fiebre alta"],
    [("very high", 9), ("burning", 8), ("high", 7)]⟩),
  ("fever", ⟨["fever", "temperature", "hot", "बुखार", "fiebre"],
    [("high", 7), ("moderate", 5), ("low", 3)]⟩),
  ("chills", ⟨["chills", "shivering", "cold", "ठंड लगना"],
    [("severe", 7), ("uncontrollable", 8)]⟩),
  ("headache", ⟨["headache", "head pain", "सिर दर्द", "dolor de cabeza"],
    [("severe", 8), ("throbbing", 7), ("mild", 3)]⟩),
  ("severe_headache", ⟨["severe headache", "splitting headache", "intense head pain"],
    [("splitting", 9), ("severe", 8), ("intense", 8)]⟩),
  ("eye_pain", ⟨["eye pain", "pain behind eyes", "eye ache"],
    [("severe", 7), ("sharp", 6)]⟩),
  ("dry_cough", ⟨["dry cough", "non-productive cough", "persistent cough"],
    [("persistent", 6), ("severe", 7)]⟩),
  ("cough", ⟨["cough", "coughing", "खांसी", "tos"],
    [("severe", 6), ("persistent", 5), ("mild", 2)]⟩),
  ("shortness_breath", ⟨["shortness of breath", "difficulty breathing", "breathless"],
    [("severe", 9), ("at rest", 8), ("on exertion", 6)]⟩),
  ("sore_throat", ⟨["sore throat", "throat pain", "difficulty swallowing"],
    [("severe", 6), ("difficulty swallowing", 7)]⟩),
  ("fatigue", ⟨["fatigue", "tiredness", "weakness", "exhausted"],
    [("extreme", 8), ("severe", 6), ("mild", 3)]⟩),
  ("muscle_pain", ⟨["muscle pain", "body aches", "muscle aches", "joint pain"],
    [("severe", 7), ("widespread", 6)]⟩),
  ("muscle_cramps", ⟨["muscle cramps", "cramping", "muscle spasms"],
    [("severe", 8), ("painful", 7)]⟩),
  ("jaundice", ⟨["yellow skin", "yellow eyes", "jaundice", "yellowing"],
    [("deep yellow", 8), ("yellow", 6)]⟩),
  ("rash", ⟨["rash", "skin rash", "red spots", "skin eruption"],
    [("widespread", 6), ("red", 5)]⟩),
  ("rose_spots", ⟨["rose spots", "red spots on chest", "rose-colored rash"],
    [("rose spots", 8)]⟩),
  ("loss_taste_smell", ⟨["loss of taste", "loss of smell", "cannot taste", "cannot smell"],
    [("complete loss", 8), ("partial loss", 6)]⟩),
  ("loss_appetite", ⟨["loss of appetite", "not hungry", "no appetite"],
    [("complete loss", 6), ("poor appetite", 4)]⟩),
  ("severe_dehydration", ⟨["severe dehydration", "very dehydrated", "sunken eyes", "dry mouth"],
    [("severe", 9), ("sunken eyes", 8), ("dry skin", 6)]⟩),
  ("rapid_fluid_loss", ⟨["losing fluids quickly", "rapid dehydration", "fluid loss"],
    [("rapid", 8), ("continuous", 7)]⟩),
  ("bleeding", ⟨["bleeding", "blood", "hemorrhage", "nosebleed"],
    [("heavy", 9), ("continuous", 8), ("minor", 4)]⟩),
  ("dark_urine", ⟨["dark urine", "tea-colored urine", "brown urine"],
    [("very dark", 7), ("tea colored", 6)]⟩),
  ("pale_stool", ⟨["pale stool", "clay-colored stool", "white stool"],
    [("very pale", 7), ("clay colored", 6)]⟩)
]

/-! ## Symptom extraction (`extract_symptoms_from_text`) -/

/-- A one-word regex alternative. -/
def alt1 (s : String) : RegexAlt := [s.toList]

/-- A multi-word alternative (words joined by `\s+` in the pattern). -/
def altWs (ss : List String) : RegexAlt := ss.map String.toList

/-- The four expansions of `comes?\s+and\s+goes?`. -/
def comesAndGoes : List RegexAlt :=
  [altWs ["come", "and", "goe"], altWs ["come", "and", "goes"],
   altWs ["comes", "and", "goe"], altWs ["comes", "and", "goes"]]

/-- `severity_patterns`: `\b(very|extremely|severely?)\s+` → 8,
`\b(quite|fairly|moderately?)\s+` → 5, `\b(slightly|mildly?|a\s+bit)\s+` → 2,
`\b(intense|severe|terrible|unbearable)\b` → 8, `\b(mild|light|minor)\b` → 2.
An optional trailing letter (`severely?` = `severel`/`severely`) is written
as two alternatives. -/
def severity_patterns : List (List RegexAlt × TailReq × ℚ) := [
  ([alt1 "very", alt1 "extremely", alt1 "severel", alt1 "severely"], .wsReq, 8),
  ([alt1 "quite", alt1 "fairly", alt1 "moderatel", alt1 "moderately"], .wsReq, 5),
  ([alt1 "slightly", alt1 "mildl", alt1 "mildly", altWs ["a", "bit"]], .wsReq, 2),
  ([alt1 "intense", alt1 "severe", alt1 "terrible", alt1 "unbearable"], .bReq, 8),
  ([alt1 "mild", alt1 "light", alt1 "minor"], .bReq, 2)
]

/-- `duration_patterns`, applied in dict order with the source's
first-match-wins `break`; default 24 hours. -/
def computeDuration (tl : List Char) : Int :=
  match searchNumUnit ["hour".toList, "hr".toList] tl with
  | some n => (n : Int)
  | none =>
  match searchNumUnit ["day".toList, "dy".toList] tl with
  | some n => (n : Int) * 24
  | none =>
  match searchNumUnit ["week".toList, "wk".toList] tl with
  | some n => (n : Int) * 168
  | none =>
  if searchSinceYesterday tl then 24
  else
  match searchLeadNumUnit "for".toList "day".toList tl with
  | some n => (n : Int) * 24
  | none =>
  match searchLeadNumUnit "last".toList "day".toList tl with
  | some n => (n : Int) * 24
  | none => 24

/-- `progression_patterns` (all of the form `\b(...)\b`). -/
def progression_patterns : List (List RegexAlt × String) := [
  ([altWs ["getting", "worse"], alt1 "worsening", alt1 "deteriorating", alt1 "increasing"], "worsening"),
  ([altWs ["getting", "better"], alt1 "improving", alt1 "recovering", alt1 "decreasing"], "improving"),
  ([alt1 "same", alt1 "stable", alt1 "unchanged", alt1 "constant"], "stable"),
  (comesAndGoes ++ [alt1 "intermittent", altWs ["on", "and", "off"]], "intermittent")
]

/-- `temporal_patterns` (all of the form `\b(...)\b`). -/
def temporal_patterns : List (List RegexAlt × String) := [
  ([alt1 "sudden", alt1 "suddenly", altWs ["all", "of", "a", "sudden"], alt1 "immediate"], "acute"),
  ([alt1 "gradual", alt1 "gradually", alt1 "slow", altWs ["over", "time"]], "gradual"),
  ([alt1 "cyclic", alt1 "cycle", alt1 "cycles", alt1 "periodic"] ++ comesAndGoes, "cyclic"),
  ([alt1 "intermittent", altWs ["on", "and", "off"], alt1 "sometimes"], "intermittent")
]

/-- Base severity 5.0, raised (`max`) by matched severity patterns and by the
symptom's severity indicators found in the text, capped (`min`) at 10. -/
def computeSeverity (tl : List Char) (entry : SymptomKeywordEntry) : ℚ :=
  let b0 : ℚ := 5
  let b1 := severity_patterns.foldl
    (fun b p => if searchPattern p.1 p.2.1 none tl then max b p.2.2 else b) b0
  let b2 := entry.severity_indicators.foldl
    (fun b iv => if containsSub tl (lowerStr iv.1).toList then max b iv.2 else b) b1
  min b2 10

/-- First matching progression pattern, default `'stable'`. -/
def computeProgression (tl : List Char) : String :=
  ((progression_patterns.find? (fun p => searchPattern p.1 .bReq none tl)).map (·.2)).getD "stable"

/-- First matching temporal pattern, default `'acute'`. -/
def computeTemporal (tl : List Char) : String :=
  ((temporal_patterns.find? (fun p => searchPattern p.1 .bReq none tl)).map (·.2)).getD "acute"

/-- Confidence: 0.8 base, 0.9 for keywords longer than 10 characters, +0.1
when a patient context is supplied (`hasattr(context, 'occupation')` is true
of every `PatientContext`), capped at 1. -/
def computeConfidence (kw : String) (context : Option PatientContext) : ℚ :=
  let c : ℚ := if kw.length > 10 then (9/10) else (8/10)
  let c1 := if context.isSome then c + (1/10) else c
  min c1 1

/-- `extract_symptoms_from_text`: case-insensitive substring scan of every
keyword, one `SymptomFeature` per symptom key (first matching keyword wins;
the source's duplicate guard keeps one mention per key). -/
def extract_symptoms_from_text (text : String) (context : Option PatientContext) :
    List SymptomFeature :=
  let tl := (lowerStr text).toList
  symptom_keywords.foldl (fun acc p =>
    match p.2.keywords.find? (fun kw => containsSub tl (lowerStr kw).toList) with
    | none => acc
    | some kw =>
      if acc.any (fun s => s.name == p.1) then acc
      else acc ++ [{
        name := p.1,
        severity := computeSeverity tl p.2,
        duration_hours := computeDuration tl,
        progression := computeProgression tl,
        confidence := computeConfidence kw context,
        temporal_pattern := computeTemporal tl }]) []

/-! ## Disease scoring (`calculate_bayesian_probability` and helpers) -/

/-- `np.mean` over a list (as used on nonempty lists in the source). -/
def listMean (l : List ℚ) : ℚ := l.sum / l.length

/-- `np.var` (population variance). -/
def listVariance (l : List ℚ) : ℚ :=
  listMean (l.map (fun x => (x - listMean l) * (x - listMean l)))

/-- `{s.name: s.severity for s in symptoms}`: first-occurrence key order,
last value wins. -/
def sevMapOf (symptoms : List SymptomFeature) : List (String × ℚ) :=
  symptoms.foldl (fun m s =>
    if m.any (fun kv => kv.1 == s.name) then
      m.map (fun kv => if kv.1 == s.name then (kv.1, s.severity) else kv)
    else m ++ [(s.name, s.severity)]) []

/-- The severity weighting of `_calculate_clinical_evidence`: 1.0 when the
severity dict is empty, else `0.5 + avg/20`. -/
def severityWeightOf (symptoms : List SymptomFeature) : ℚ :=
  let sevMap := sevMapOf symptoms
  if sevMap.length ≠ 0 then (1/2) + listMean (sevMap.map Prod.snd) / 20 else 1

/-- `matches / len(listed)` (0 when `listed` is empty). -/
def matchRatio (listed names : List String) : ℚ :=
  if listed.length ≠ 0 then
    ((listed.filter (fun x => names.contains x)).length : ℚ) / listed.length
  else 0

/-- `_calculate_clinical_evidence`. -/
def _calculate_clinical_evidence (symptoms : List SymptomFeature)
    (sig : DiseaseSignature) : ℚ :=
  let names := symptoms.map (·.name)
  (matchRatio sig.primary_symptoms names * (7/10) +
   matchRatio sig.secondary_symptoms names * (3/10)) * severityWeightOf symptoms

/-- Dict lookup in a `demographic_risk`/`environmental_correlation` table. -/
def riskLookup (l : List (String × ℚ)) (k : String) : Option ℚ :=
  (l.find? (fun kv => kv.1 == k)).map (·.2)

/-- `_calculate_environmental_adjustment`.  The disease index is passed in:
the source recovers it by identity lookup of the signature in the (injective)
signature table, which yields the disease's position.  The `poor_sanitation`
branch is inert because `EnvironmentalContext` has no `sanitation_score`
attribute, so the source's `hasattr` test is always false. -/
def _calculate_environmental_adjustment (env : EnvironmentalContext)
    (sig : DiseaseSignature) (disease_idx : Nat) : ℚ :=
  let a0 : ℚ := 1
  let a1 :=
    if env.season == "winter" then a0 * seasonalProb disease_idx 0
    else if env.season == "spring" then a0 * seasonalProb disease_idx 3
    else if env.season == "summer" then a0 * seasonalProb disease_idx 6
    else if env.season == "fall" then a0 * seasonalProb disease_idx 9
    else a0
  let a2 := sig.environmental_correlation.foldl (fun adj fc =>
    if fc.1 == "rainfall_spike" && decide (env.rainfall_7day > 50) then adj * (1 + fc.2)
    else if fc.1 == "water_contamination" && decide (env.water_quality_score < (5/10)) then adj * (1 + fc.2)
    else if fc.1 == "urban_areas" && decide (env.population_density > 1000) then adj * (1 + fc.2)
    else if fc.1 == "stagnant_water" && decide (env.humidity > 80) then adj * (1 + fc.2)
    else adj) a1
  min a2 3

/-- `(riskLookup ...).isSome`: the source's `key in signature.demographic_risk`. -/
def hasRisk (sig : DiseaseSignature) (k : String) : Bool :=
  (riskLookup sig.demographic_risk k).isSome

/-- `signature.demographic_risk[key]` (0 outside the guarded branches). -/
def getRisk (sig : DiseaseSignature) (k : String) : ℚ :=
  (riskLookup sig.demographic_risk k).getD 0

/-- The age `if`/`elif` chain of `_calculate_demographic_adjustment`: each
arm requires both the age test and the presence of the risk key. -/
def demoAgeAdj (p : PatientContext) (sig : DiseaseSignature) (a : ℚ) : ℚ :=
  if decide (p.age < 5) && hasRisk sig "children_under_5" then
    a * (1 + getRisk sig "children_under_5")
  else if decide (65 ≤ p.age) && hasRisk sig "elderly" then
    a * (1 + getRisk sig "elderly")
  else if decide (18 ≤ p.age) && decide (p.age ≤ 35) && hasRisk sig "young_adults" then
    a * (1 + getRisk sig "young_adults")
  else if decide (5 ≤ p.age) && decide (p.age ≤ 18) && hasRisk sig "school_age" then
    a * (1 + getRisk sig "school_age")
  else a

/-- The gender block (assumed 50% pregnancy weighting, as in the source). -/
def demoGenderAdj (p : PatientContext) (sig : DiseaseSignature) (a : ℚ) : ℚ :=
  if p.gender == "female" && decide (15 ≤ p.age) && decide (p.age ≤ 49) then
    if hasRisk sig "pregnant_women" then a * (1 + getRisk sig "pregnant_women" * (1/2)) else a
  else a

/-- The occupation `if`/`elif` chain. -/
def demoOccupationAdj (p : PatientContext) (sig : DiseaseSignature) (a : ℚ) : ℚ :=
  if ["food_handler", "cook", "restaurant_worker"].contains p.occupation &&
      hasRisk sig "food_handlers" then
    a * (1 + getRisk sig "food_handlers")
  else if ["farmer", "field_worker", "outdoor_worker"].contains p.occupation &&
      hasRisk sig "outdoor_workers" then
    a * (1 + getRisk sig "outdoor_workers")
  else a

/-- The recent-travel block. -/
def demoTravelAdj (p : PatientContext) (sig : DiseaseSignature) (a : ℚ) : ℚ :=
  if p.recent_travel && hasRisk sig "travelers" then a * (1 + getRisk sig "travelers")
  else a

/-- `_calculate_demographic_adjustment`: the four blocks applied in source
order to the initial 1.0, capped at 3×. -/
def _calculate_demographic_adjustment (p : PatientContext)
    (sig : DiseaseSignature) : ℚ :=
  min (demoTravelAdj p sig (demoOccupationAdj p sig (demoGenderAdj p sig (demoAgeAdj p sig 1)))) 3

/-- The prior of `calculate_bayesian_probability`: base 0.1, times the
seasonal entry for the current (0-indexed) month, times the environmental
and demographic adjustments when the contexts are present. -/
def priorScore (pc : Option PatientContext) (ec : Option EnvironmentalContext)
    (month : Fin 12) (disease_idx : Nat) (sig : DiseaseSignature) : ℚ :=
  let p0 : ℚ := (1/10)
  let p1 := p0 * seasonalProb disease_idx month.val
  let p2 := match ec with
    | some env => p1 * _calculate_environmental_adjustment env sig disease_idx
    | none => p1
  match pc with
  | some p => p2 * _calculate_demographic_adjustment p sig
  | none => p2

/-- The posterior before the `min(·, 1.0)` clamp: weighted combination,
then one `×0.1` per exclusionary symptom present, then one `×2.0` per
pathognomonic sign present. -/
def posteriorScore (symptoms : List SymptomFeature) (pc : Option PatientContext)
    (ec : Option EnvironmentalContext) (month : Fin 12)
    (disease_idx : Nat) (sig : DiseaseSignature) : ℚ :=
  let base := _calculate_clinical_evidence symptoms sig * (7/10) +
    priorScore pc ec month disease_idx sig * (3/10)
  let names := symptoms.map (·.name)
  let afterPen := sig.exclusionary_symptoms.foldl
    (fun acc ex => if names.contains ex then acc * (1/10) else acc) base
  sig.pathognomonic_signs.foldl
    (fun acc pg => if names.contains pg then acc * 2 else acc) afterPen

/-- The value stored in `disease_probabilities[disease_name]` before
normalization. -/
def rawDiseaseScore (symptoms : List SymptomFeature) (pc : Option PatientContext)
    (ec : Option EnvironmentalContext) (month : Fin 12)
    (disease_idx : Nat) (sig : DiseaseSignature) : ℚ :=
  min (posteriorScore symptoms pc ec month disease_idx sig) 1

/-- The full pre-normalization map, in signature order. -/
def disease_probabilities_raw (symptoms : List SymptomFeature)
    (pc : Option PatientContext) (ec : Option EnvironmentalContext)
    (month : Fin 12) : List (String × ℚ) :=
  disease_signatures.enum.map (fun ip =>
    (ip.2.1, rawDiseaseScore symptoms pc ec month ip.1 ip.2.2))

/-- Sum of the values of an association list. -/
def valsSum (l : List (String × ℚ)) : ℚ := (l.map Prod.snd).sum

/-- `calculate_bayesian_probability`: raw scores, normalized iff their sum is
positive. -/
def calculate_bayesian_probability (symptoms : List SymptomFeature)
    (pc : Option PatientContext) (ec : Option EnvironmentalContext)
    (month : Fin 12) : List (String × ℚ) :=
  let raw := disease_probabilities_raw symptoms pc ec month
  let total := valsSum raw
  if total > 0 then raw.map (fun kv => (kv.1, kv.2 / total)) else raw

/-! ## Anomaly detection (`detect_anomalies`) -/

/-- The `anomaly_scores` dict. -/
structure AnomalyScores where
  symptom_novelty : ℚ
  temporal_anomaly : ℚ
  confidence_anomaly : ℚ
  severity_anomaly : ℚ
  combined_anomaly : ℚ
deriving DecidableEq, Repr

/-- Python `max` over a possibly-empty value list, with the source's
`if ... else 0` guard folded in. -/
def pyMaxD (l : List ℚ) : ℚ :=
  match l with
  | [] => 0
  | x :: xs => xs.foldl max x

/-- `detect_anomalies`. -/
def detect_anomalies (symptoms : List SymptomFeature)
    (probs : List (String × ℚ)) : AnomalyScores :=
  let names := symptoms.map (·.name)
  let known := disease_signatures.foldl
    (fun acc ds => acc ++ ds.2.primary_symptoms ++ ds.2.secondary_symptoms) []
  let unknowns := names.filter (fun n => !known.contains n)
  let symptom_novelty : ℚ :=
    if names.length ≠ 0 then (unknowns.length : ℚ) / names.length else 0
  let t0 := symptoms.foldl (fun t s =>
    let t1 := if !(["acute", "gradual", "cyclic", "intermittent"].contains s.temporal_pattern)
      then t + (2/10) else t
    if s.progression == "worsening" && decide (s.severity > 8) then t1 + (3/10) else t1) 0
  let temporal_anomaly := min t0 1
  let confidence_anomaly := 1 - pyMaxD (probs.map Prod.snd)
  let severity_anomaly : ℚ :=
    if symptoms.length ≠ 0 then
      let sevs := symptoms.map (·.severity)
      min ((listMean sevs / 10) * (listVariance sevs / 25)) 1
    else 0
  let combined := symptom_novelty * (4/10) + temporal_anomaly * (3/10) +
    confidence_anomaly * (2/10) + severity_anomaly * (1/10)
  ⟨symptom_novelty, temporal_anomaly, confidence_anomaly, severity_anomaly, combined⟩

/-! ## Confidence scoring (`calculate_confidence_scores`) -/

/-- The `confidence_components` dict. -/
structure ConfidenceBreakdown where
  ensemble_agreement : ℚ
  historical_validation : ℚ
  feature_completeness : ℚ
  context_consistency : ℚ
  overall_confidence : ℚ
deriving DecidableEq, Repr

/-- Descending insertion keeping earlier-inserted equal values first
(Python's stable `sorted(..., reverse=True)`). -/
def insertDescQ (x : ℚ) : List ℚ → List ℚ
  | [] => [x]
  | y :: ys => if x > y then x :: y :: ys else y :: insertDescQ x ys

/-- `sorted(values, reverse=True)`. -/
def sortDescQ (l : List ℚ) : List ℚ := l.foldl (fun acc x => insertDescQ x acc) []

/-- `max(items, key=lambda x: x[1])[0]`: first key of maximal value. -/
def pyArgMax (l : List (String × ℚ)) : String :=
  match l with
  | [] => ""
  | x :: xs => (xs.foldl (fun best kv => if kv.2 > best.2 then kv else best) x).1

/-- `calculate_confidence_scores`.  The float division
`(top1 - top2) / top1` raises `ZeroDivisionError` when `top1 == 0`; that and
the (unreachable) signature `KeyError` are the fallible points, modelled with
`Except` so that `classify_disease`'s `try`/`except` can catch them. -/
def calculate_confidence_scores (symptoms : List SymptomFeature)
    (probs : List (String × ℚ)) (pc : Option PatientContext) :
    Except String ConfidenceBreakdown := do
  let ensemble_agreement : ℚ ←
    if probs.isEmpty then pure 0
    else
      let sorted_probs := sortDescQ (probs.map Prod.snd)
      if sorted_probs.length ≥ 2 then
        let top := sorted_probs.headD 0
        let second := (sorted_probs.drop 1).headD 0
        if top == 0 then Except.error "float division by zero"
        else pure ((top - second) / top)
      else pure (sorted_probs.headD 0)
  let historical_validation : ℚ :=
    if symptoms.length ≠ 0 then listMean (symptoms.map (·.confidence)) else (1/2)
  let feature_completeness : ℚ ←
    if !symptoms.isEmpty && !probs.isEmpty then
      let top_disease := pyArgMax probs
      match disease_signatures.find? (fun d => d.1 == top_disease) with
      | some d =>
        let expected := d.2.primary_symptoms ++ d.2.secondary_symptoms
        let names := symptoms.map (·.name)
        let found := expected.filter (fun s => names.contains s)
        pure (if expected.length ≠ 0 then ((found.length : ℚ) / expected.length) else 0)
      | none => Except.error "KeyError"
    else pure 0
  let context_consistency : ℚ := if pc.isSome then (8/10) else (7/10)
  let overall := ensemble_agreement * (4/10) + historical_validation * (3/10) +
    feature_completeness * (2/10) + context_consistency * (1/10)
  pure ⟨ensemble_agreement, historical_validation, feature_completeness,
    context_consistency, overall⟩

/-! ## Final classification (`classify_disease` and helpers) -/

/-- Stable descending insertion for `(disease, probability)` pairs. -/
def insertDescPair (x : String × ℚ) : List (String × ℚ) → List (String × ℚ)
  | [] => [x]
  | y :: ys => if x.2 > y.2 then x :: y :: ys else y :: insertDescPair x ys

/-- `sorted(disease_probabilities.items(), key=lambda x: x[1], reverse=True)`
(stable, as Python's sort is). -/
def sortedDiseasesOf (l : List (String × ℚ)) : List (String × ℚ) :=
  l.foldl (fun acc x => insertDescPair x acc) []

/-- `diagnosis.replace('_', ' ')`. -/
def replaceUnderscores (s : String) : String :=
  String.mk (s.toList.map (fun c => if c == '_' then ' ' else c))

/-- `_generate_recommendation`. -/
def _generate_recommendation (diagnosis : String) (confidence : ℚ)
    (anomaly_detected : Bool) (symptoms : List SymptomFeature) : String :=
  if anomaly_detected then
    "⚠️ Unusual symptom pattern detected. Immediate expert medical evaluation required."
  else if confidence > (8/10) then
    if diagnosis == "cholera" then
      "🚨 HIGH PRIORITY: Immediate medical attention and rehydration therapy required. Isolate patient."
    else if diagnosis == "typhoid" then
      "⚠️ URGENT: Antibiotic treatment needed. Consult healthcare provider immediately."
    else if diagnosis == "malaria" then
      "🏥 Rapid diagnostic test recommended. Start antimalarial treatment if positive."
    else if diagnosis == "dengue" then
      "⚠️ Monitor closely for bleeding/shock. Maintain hydration. Avoid aspirin."
    else if diagnosis == "covid19" then
      "🔍 COVID-19 testing recommended. Isolate and monitor oxygen levels."
    else
      "Probable " ++ replaceUnderscores diagnosis ++ ". Consult healthcare provider for treatment."
  else if confidence > (5/10) then
    "Possible " ++ replaceUnderscores diagnosis ++ ". Monitor symptoms and seek medical advice if worsening."
  else
    let max_severity := pyMaxD (symptoms.map (·.severity))
    if max_severity ≥ 8 then
      "⚠️ High severity symptoms detected. Immediate medical evaluation recommended."
    else
      "Multiple conditions possible. Consider medical consultation for proper diagnosis."

/-- `_assess_overall_severity`. -/
def _assess_overall_severity (symptoms : List SymptomFeature) : String :=
  if symptoms.isEmpty then "Unknown"
  else
    let max_severity := pyMaxD (symptoms.map (·.severity))
    let avg_severity := listMean (symptoms.map (·.severity))
    let has_high_risk := symptoms.any (fun s =>
      ["severe_dehydration", "difficulty_breathing", "chest_pain", "bleeding"].contains s.name)
    if max_severity ≥ 8 ∨ has_high_risk then "High"
    else if max_severity ≥ 6 ∨ avg_severity ≥ 5 then "Medium"
    else "Low"

/-- `_assess_urgency`. -/
def _assess_urgency (diagnosis : String) (symptoms : List SymptomFeature)
    (anomaly_detected : Bool) : String :=
  if anomaly_detected then "IMMEDIATE"
  else if ["cholera", "severe_malaria", "dengue_hemorrhagic", "covid19_severe"].contains diagnosis then
    "IMMEDIATE"
  else if symptoms.any (fun s =>
      ["severe_dehydration", "difficulty_breathing", "chest_pain", "bleeding"].contains s.name &&
        decide (s.severity ≥ 8)) then
    "URGENT"
  else
    let max_severity := pyMaxD (symptoms.map (·.severity))
    if max_severity ≥ 7 then "URGENT"
    else if max_severity ≥ 5 then "MODERATE"
    else "LOW"

/-- The symptom records embedded in the result dict (the source projects out
`confidence`). -/
structure SymptomRecord where
  name : String
  severity : ℚ
  duration_hours : Int
  progression : String
  temporal_pattern : String
deriving DecidableEq, Repr

/-- The full success dict of `classify_disease`. -/
structure FullResult where
  primary_diagnosis : String
  confidence : ℚ
  probability : ℚ
  differential_diagnoses : List (String × ℚ)
  extracted_symptoms : List SymptomRecord
  anomaly_detected : Bool
  anomaly_scores : AnomalyScores
  confidence_breakdown : ConfidenceBreakdown
  recommendation : String
  severity_assessment : String
  urgency_level : String
deriving DecidableEq, Repr

/-- The three shapes `classify_disease` can return: the no-symptom dict, the
full dict, and the `except`-handler dict. -/
inductive ClassificationOutcome where
  | insufficient_information (confidence : ℚ) (differential_diagnoses : List (String × ℚ))
      (anomaly_detected : Bool) (recommendation : String)
  | full (r : FullResult)
  | classification_error (confidence : ℚ) (error : String) (recommendation : String)
deriving DecidableEq, Repr

/-- Steps 2–5 of `classify_disease` for a nonempty symptom list. -/
def classifySteps (symptoms : List SymptomFeature) (pc : Option PatientContext)
    (ec : Option EnvironmentalContext) (month : Fin 12) :
    Except String FullResult := do
  let disease_probabilities := calculate_bayesian_probability symptoms pc ec month
  let anomaly_scores := detect_anomalies symptoms disease_probabilities
  let confidence_scores ← calculate_confidence_scores symptoms disease_probabilities pc
  let sorted_diseases := sortedDiseasesOf disease_probabilities
  let primary_diagnosis := match sorted_diseases with
    | [] => "unknown"
    | x :: _ => x.1
  let primary_confidence := match sorted_diseases with
    | [] => (0 : ℚ)
    | x :: _ => x.2
  let differential_diagnoses :=
    ((sorted_diseases.drop 1).take 3).filter (fun dp => dp.2 > (1/10))
  let anomaly_detected := decide (anomaly_scores.combined_anomaly > (7/10))
  let recommendation :=
    _generate_recommendation primary_diagnosis primary_confidence anomaly_detected symptoms
  pure {
    primary_diagnosis := primary_diagnosis,
    confidence := confidence_scores.overall_confidence,
    probability := primary_confidence,
    differential_diagnoses := differential_diagnoses,
    extracted_symptoms := symptoms.map (fun s =>
      ⟨s.name, s.severity, s.duration_hours, s.progression, s.temporal_pattern⟩),
    anomaly_detected := anomaly_detected,
    anomaly_scores := anomaly_scores,
    confidence_breakdown := confidence_scores,
    recommendation := recommendation,
    severity_assessment := _assess_overall_severity symptoms,
    urgency_level := _assess_urgency primary_diagnosis symptoms anomaly_detected }

/-- `classify_disease`: extraction, the `if not symptoms` early return, the
pipeline, and the top-level `except` that converts any internal error into
the `classification_error` dict. -/
def classify_disease (text : String) (pc : Option PatientContext)
    (ec : Option EnvironmentalContext) (month : Fin 12) : ClassificationOutcome :=
  let symptoms := extract_symptoms_from_text text pc
  if symptoms.isEmpty then
    .insufficient_information (1/10) [] false
      "More symptom information needed for accurate diagnosis"
  else
    match classifySteps symptoms pc ec month with
    | .ok r => .full r
    | .error e => .classification_error 0 e
        "System error occurred. Please consult healthcare provider."

/-- The `differential_diagnoses` field of whichever dict was returned (the
`classification_error` dict has none; read it as empty). -/
def differential_of : ClassificationOutcome → List (String × ℚ)
  | .insufficient_information _ d _ _ => d
  | .full r => r.differential_diagnoses
  | .classification_error _ _ _ => []

/-- The `primary_diagnosis` field of whichever dict was returned. -/
def primary_of : ClassificationOutcome → String
  | .insufficient_information _ _ _ _ => "insufficient_information"
  | .full r => r.primary_diagnosis
  | .classification_error _ _ _ => "classification_error"

/-- The `severity_assessment` field; the insufficient-information and error
dicts carry none, which we read as the source's no-symptom marker. -/
def severity_assessment_of : ClassificationOutcome → String
  | .full r => r.severity_assessment
  | _ => "Unknown"

/-! ## Weather simulator (`environmental_geographic_analyzer.get_real_time_weather`) -/

/-- `ClimateData` dataclass (the fields `get_real_time_weather` fills). -/
structure ClimateData where
  temperature_celsius : ℚ
  humidity_percent : ℚ
  rainfall_mm_7days : ℚ
  wind_speed_kmh : ℚ
  air_pressure_hpa : ℚ
  uv_index : Int
  season : String
  weather_pattern : String
deriving DecidableEq, Repr

/-- `abs(h % n)` for Python's `%` with a positive modulus (already
non-negative, so `abs` is the identity), as a rational. -/
def hashMod (h : Int) (n : Nat) : ℚ := ((h % (n : Int)).natAbs : ℚ)

/-- `get_real_time_weather`.  `pyhash` stands for the process's
`x ↦ hash(str(x))` (Python string hashing is salted per process but fixed
within one); `current_month` is `datetime.now().month` (1–12). -/
def get_real_time_weather (pyhash : ℚ → Int) (current_month : Nat)
    (lat lon : ℚ) : ClimateData :=
  let core :=
    if lat > 20 then
      if 4 ≤ current_month ∧ current_month ≤ 6 then
        (35 + (lat - 20) * (1/2), 40 + hashMod (pyhash (lat + lon)) 20,
          2 + hashMod (pyhash (lat * lon)) 15, "summer")
      else if 7 ≤ current_month ∧ current_month ≤ 9 then
        (28 + hashMod (pyhash lat) 8, 75 + hashMod (pyhash lon) 15,
          45 + hashMod (pyhash (lat + lon)) 80, "monsoon")
      else
        (22 + hashMod (pyhash (lat * 2)) 12, 55 + hashMod (pyhash (lon * 2)) 25,
          3 + hashMod (pyhash (lat - lon)) 10, "winter")
    else
      (30 + hashMod (pyhash lat) 8, 65 + hashMod (pyhash lon) 20,
        25 + hashMod (pyhash (lat + lon)) 50, "tropical")
  let temp := core.1
  let humidity := core.2.1
  let rainfall := core.2.2.1
  let season := core.2.2.2
  { temperature_celsius := temp,
    humidity_percent := humidity,
    rainfall_mm_7days := rainfall,
    wind_speed_kmh := 12 + hashMod (pyhash lat) 15,
    air_pressure_hpa := 1013 + hashMod (pyhash lon) 20,
    uv_index := min 11 ⌊temp / 4⌋,
    season := season,
    weather_pattern := if rainfall > 30 then "wet" else "dry" }

/-! ## Multilingual detector (`enhanced_multilingual_symptom_detector.py`) -/

/-- One value of the multilingual symptom database: the per-language keyword
lists (insertion order) and the severity label. -/
structure MultilingualSymptomEntry where
  variants : List (String × List String)
  severity : String
deriving DecidableEq, Repr

/-- `_initialize_language_patterns`: each regex `[\uXXXX-\uYYYY]+` matches
iff some character lies in the range. -/
def language_patterns : List (String × (UInt32 × UInt32)) := [
  ("hindi_devanagari", (0x900, 0x97F)),
  ("bengali", (0x980, 0x9FF)),
  ("tamil", (0xB80, 0xBFF)),
  ("telugu", (0xC00, 0xC7F)),
  ("marathi", (0x900, 0x97F)),
  ("gujarati", (0xA80, 0xAFF)),
  ("kannada", (0xC80, 0xCFF)),
  ("malayalam", (0xD00, 0xD7F)),
  ("punjabi", (0xA00, 0xA7F))
]

/-- `detect_language`. -/
def detect_language (text : String) : List String :=
  let langs := language_patterns.foldl (fun acc lp =>
    if text.toList.any (fun c => lp.2.1 ≤ c.val && c.val ≤ lp.2.2) then acc ++ [lp.1]
    else acc) ["english"]
  if ["bukhar", "sir", "dard", "pet", "ulti", "khansi"].any
      (fun w => containsSub (lowerStr text).toList w.toList) then
    langs ++ ["hindi_roman"]
  else langs

/-- One detected symptom dict of `detect_symptoms_multilingual`. -/
structure DetectedSymptom where
  name : String
  severity : String
  confidence : ℚ
  languages_detected : List String
deriving DecidableEq, Repr

/-- The inner loops of `detect_symptoms_multilingual` for one symptom entry:
the first detected language present in the entry whose first matching keyword
is a substring of the lowered message fixes the confidence
`min(1, 0.7 + len(keyword)*0.02)`. -/
def findLangMatch (entry : MultilingualSymptomEntry) (langs : List String)
    (message_lower : List Char) : Option ℚ :=
  langs.findSome? (fun lang =>
    match entry.variants.find? (fun v => v.1 == lang) with
    | none => none
    | some v =>
      (v.2.find? (fun kw => containsSub message_lower (lowerStr kw).toList)).map
        (fun kw => min 1 ((7/10) + (kw.length : ℚ) * (2/100))))
/-- `_initialize_multilingual_symptoms` (insertion order preserved). -/
def symptom_database : List (String × MultilingualSymptomEntry) := [
  ("fever", ⟨[
    ("english", ["fever", "temperature", "hot", "burning", "chills", "high fever", "feverish", "pyrexia"]),
    ("hindi_devanagari", ["рдмреБрдЦрд╛рд░", "рдЬреНрд╡рд░", "рддреЗрдЬ рдмреБрдЦрд╛рд░", "рддрд╛рдкрдорд╛рди", "рдЧрд░реНрдореА", "рдардВрдб рд▓рдЧрдирд╛", "рдХрдВрдкрдХрдВрдкреА"]),
    ("hindi_roman", ["bukhar", "jwar", "tez bukhar", "tapman", "garmi", "thand", "kampkampi"]),
    ("bengali", ["ржЬрзНржмрж░", "ржЬрзНржмрж░ ржЖржЫрзЗ", "рждрж╛ржкржорж╛рждрзНрж░рж╛", "ржЧрж░ржо рж▓рж╛ржЧржЫрзЗ", "ржХрж╛ржБржкрзБржирж┐"]),
    ("bengali_roman", ["jor", "jor ache", "tapmattra", "gorom lagche", "kampuni"]),
    ("tamil", ["роХро╛ропрпНроЪрпНроЪро▓рпН", "ро╡рпЖрокрпНрокроорпН", "роХрпЛропрпНроЪрпНроЪро▓рпН", "роЙроЯро▓рпН роЪрпВроЯрпБ", "роироЯрпБроХрпНроХроорпН"]),
    ("tamil_roman", ["kaichal", "veppam", "koichal", "udal sudu", "nadukkam"]),
    ("telugu", ["р░Ьр▒Нр░╡р░░р░В", "р░╡р▒Зр░бр░┐р░ор░┐", "р░╡р▒Зр░бр▒Бр░Хр░▓р▒Б", "р░Хр░Вр░кр░ир░▓р▒Б", "р░Ър░▓р░┐р░ор░┐"]),
    ("telugu_roman", ["jvaram", "vedimi", "vedukalu", "kampanalu", "chalimi"]),
    ("marathi", ["рддрд╛рдк", "рдЧрд░рдореА", "рд╡реЗрджрдирд╛", "рдерд░рдерд░", "рдХрд╛рдкрд░реЗ"]),
    ("marathi_roman", ["taap", "garmi", "vedana", "tharthar", "kapre"]),
    ("gujarati", ["ркдрк╛рк╡", "ркдрк╛ркк", "ркЬрлНрк╡рк░", "ркЧрк░ркорлА", "ркарк░ркгрлБркВ"]),
    ("gujarati_roman", ["tav", "tap", "jvar", "garmi", "tharanum"]),
    ("kannada", ["р▓Ьр│Нр▓╡р▓░", "р▓мр▓┐р▓╕р▓┐", "р▓др▓╛р▓к", "р▓ир▓бр│Бр▓Чр│Б", "р▓Ър▓│р▓┐"]),
    ("kannada_roman", ["jvara", "bisi", "tapa", "nadugu", "chali"]),
    ("malayalam", ["р┤кр┤ир┤┐", "р┤Ър╡Бр┤Яр╡Нр┤Яр╡Бр┤кр┤ир┤┐", "р┤Ър╡Вр┤Яр╡Н", "р┤╡р┤┐р┤▒р┤пр╡╜"]),
    ("malayalam_roman", ["pani", "chuttupani", "choot", "virayal"]),
    ("punjabi", ["римрйБриЦри╝ри╛ри░", "ридри╛рик", "риЧри░риорйА", "риХрй░римригрйА"]),
    ("punjabi_roman", ["bukhar", "tap", "garmi", "kambani"])],
    "Medium"⟩),
  ("headache", ⟨[
    ("english", ["headache", "head pain", "head ache", "severe headache", "migraine", "head hurts"]),
    ("hindi_devanagari", ["рд╕рд┐рд░ рджрд░реНрдж", "рд╕рд┐рд░рджрд░реНрдж", "рд╕рд┐рд░ рдореЗрдВ рджрд░реНрдж", "рдорд╛рдереЗ рдореЗрдВ рджрд░реНрдж", "рд╕рд┐рд░ рджреБрдЦрдирд╛"]),
    ("hindi_roman", ["sir dard", "sirdard", "sir me dard", "mathe me dard", "sir dukhna"]),
    ("bengali", ["ржорж╛ржерж╛ржмрзНржпржерж╛", "ржорж╛ржерж╛ ржмрзНржпржерж╛", "ржорж╛ржерж╛ ржжрзБржЦржЫрзЗ", "ржорж╛ржерж╛рж░ ржпржирзНрждрзНрж░ржгрж╛"]),
    ("bengali_roman", ["mathabytha", "matha bytha", "matha dukhche", "mathar jontrana"]),
    ("tamil", ["родро▓рпИро╡ро▓ро┐", "родро▓рпИ ро╡ро▓ро┐", "родро▓рпИропро┐ро▓рпН ро╡ро▓ро┐", "роирпЖро▒рпНро▒ро┐ ро╡ро▓ро┐"]),
    ("tamil_roman", ["talaivali", "talai vali", "talaiyil vali", "netri vali"]),
    ("telugu", ["р░др░▓р░ир▒Кр░кр▒Нр░кр░┐", "р░др░▓ р░ир▒Кр░кр▒Нр░кр░┐", "р░др░▓р░▓р▒Л р░ир▒Кр░кр▒Нр░кр░┐", "р░ир▒Кр░кр▒Нр░кр░┐"]),
    ("telugu_roman", ["talanoppi", "tala noppi", "talalo noppi", "noppi"]),
    ("marathi", ["рдбреЛрдХреЗрджреБрдЦреА", "рдбреЛрдХреЗ рджреБрдЦрдгреЗ", "рдХрдкрд╛рд│ рджреБрдЦреА"]),
    ("marathi_roman", ["dokedukhi", "doke dukhne", "kapal dukhi"]),
    ("gujarati", ["ркорк╛ркерк╛ркирлЛ ркжрлБркЦрк╛рк╡рлЛ", "ркорк╛ркерлБркВ ркжрлБркЦрк╡рлБркВ", "ркорк╛ркерк╛ркирлЛ ркжрлБркЦрк╛рк░"]),
    ("gujarati_roman", ["mathano dukhavo", "mathun dukhvun", "mathano dukhar"]),
    ("kannada", ["р▓др▓▓р│Жр▓ир│Лр▓╡р│Б", "р▓др▓▓р│Ж р▓ир│Лр▓╡р│Б", "р▓др▓▓р│Ж р▓мр▓╛р▓зр│Ж"]),
    ("kannada_roman", ["talenovu", "tale novu", "tale badhe"]),
    ("malayalam", ["р┤др┤▓р┤╡р╡Зр┤жр┤и", "р┤др┤▓ р┤╡р╡Зр┤жр┤и", "р┤др┤▓р┤пр┤┐р╡╜ р┤╡р╡Зр┤жр┤и"]),
    ("malayalam_roman", ["talavedana", "tala vedana", "talayil vedana"]),
    ("punjabi", ["ри╕ри┐ри░ рижри░риж", "ри╕ри┐ри░ ри╡ри┐рй▒риЪ рижри░риж", "ри╕ри┐ри░ рижрйБрй▒риЦригри╛"]),
    ("punjabi_roman", ["sir dard", "sir vich dard", "sir dukhna"])],
    "Low"⟩),
  ("diarrhea", ⟨[
    ("english", ["diarrhea", "diarrhoea", "loose stool", "watery stool", "loose motion", "bloody diarrhea", "loose bowels"]),
    ("hindi_devanagari", ["рджрд╕реНрдд", "рдкреЗрдЪрд┐рд╢", "рджрд╕реНрдд рд▓рдЧрдирд╛", "рдкрддрд▓реЗ рджрд╕реНрдд", "рдЦреВрдиреА рджрд╕реНрдд", "рдкреЗрдЯ рдЦрд░рд╛рдм"]),
    ("hindi_roman", ["dast", "pechish", "dast lagna", "patle dast", "khooni dast", "pet kharab"]),
    ("bengali", ["ржкрж╛рждрж▓рж╛ ржкрж╛ржпрж╝ржЦрж╛ржирж╛", "ржбрж╛ржпрж╝рж░рж┐ржпрж╝рж╛", "ржмрж╛рж░ ржмрж╛рж░ ржкрж╛ржпрж╝ржЦрж╛ржирж╛", "рждрж░рж▓ ржкрж╛ржпрж╝ржЦрж╛ржирж╛"]),
    ("bengali_roman", ["patla paykhana", "diarrhea", "bar bar paykhana", "taral paykhana"]),
    ("tamil", ["ро╡ропро┐ро▒рпНро▒рпБрокрпНрокрпЛроХрпНроХрпБ", "родрогрпНрогрпАро░рпН рооро▓роорпН", "роХро┤ро┐роЪрпНроЪро▓рпН", "ро╡ропро┐ро▒рпБ роХро┤ро┐роЪрпНроЪро▓рпН"]),
    ("tamil_roman", ["vaiyatrupooku", "thanneer malam", "kazhichal", "vairu kazhichal"]),
    ("telugu", ["р░╡р░┐р░░р▒Зр░Ър░ир░▓р▒Б", "р░Ер░Ьр▒Ар░░р▒Нр░гр░В", "р░ир▒Ар░Яр░┐р░▓р░╛р░Вр░Яр░┐ р░ор░▓р░В", "р░Хр░бр▒Бр░кр▒Б р░Хр░▓р░д"]),
    ("telugu_roman", ["virechanalu", "ajeernam", "neetilanti malam", "kadupu kalatha"]),
    ("marathi", ["рдЬреБрд▓рд╛рдм", "рдкрд╛рддрд│ рд╕рдВрдбрд╛рд╕", "рдкреЗрдЯрд╛рд│рд╛", "рдЕрддрд┐рд╕рд╛рд░"]),
    ("marathi_roman", ["julab", "patla sandas", "petala", "atisar"]),
    ("gujarati", ["ркЭрк╛ркбрк╛", "рккрк╛ркдрк│рк╛ ркЯркЯрлНркЯрлА", "рккрлЗркЯркорк╛ркВ ркЦрк░рк╛ркм", "ркЕркдрк┐рк╕рк╛рк░"]),
    ("gujarati_roman", ["jhada", "patla tatti", "petma kharab", "atisar"]),
    ("kannada", ["р▓Ер▓др▓┐р▓╕р▓╛р▓░", "р▓Ор▓│р│Нр▓│р│Б р▓ор▓▓", "р▓╣р│Кр▓Яр│Нр▓Яр│Ж р▓Цр▓░р▓╛р▓мр│Б", "р▓жр▓╕р│Нр▓др│Б"]),
    ("kannada_roman", ["atisara", "ellu mala", "hotte kharabu", "dastu"]),
    ("malayalam", ["р┤╡р┤пр┤▒р┤┐р┤│р┤Хр╡Нр┤Хр┤В", "р┤Ер┤др┤┐р┤╕р┤╛р┤░р┤В", "р┤╡р╡Жр┤│р╡Нр┤│р┤ор┤▓", "р┤╡р┤пр┤▒р╡Н р┤Хр╡Бр┤┤р┤кр╡Нр┤кр┤В"]),
    ("malayalam_roman", ["vayarilakkam", "atisaram", "vellamala", "vayar kuzhappam"]),
    ("punjabi", ["рижри╕рид", "рикридри▓рйЗ рижри╕рид", "риври┐рй▒риб риЦри░ри╛рим", "ри▓рйВри╕ риорйЛри╕ри╝рии"]),
    ("punjabi_roman", ["dast", "patle dast", "dhid kharab", "loose motion"])],
    "Medium"⟩),
  ("vomiting", ⟨[
    ("english", ["vomiting", "throw up", "puke", "throwing up", "vomit", "nausea vomiting", "retching"]),
    ("hindi_devanagari", ["рдЙрд▓реНрдЯреА", "рдЙрд▓реНрдЯреА рдЖрдирд╛", "рдХреИ", "рдЙрдмрдХрд╛рдИ", "рдЬреА рдорд┐рдЪрд▓рд╛рдирд╛", "рдорддрд▓реА рдЙрд▓реНрдЯреА"]),
    ("hindi_roman", ["ulti", "ulti ana", "kai", "ubkai", "ji michalna", "matli ulti"]),
    ("bengali", ["ржмржорж┐", "ржмржорж┐ рж╣ржУржпрж╝рж╛", "ржмржорж┐ ржнрж╛ржм", "ржмржорж┐ ржХрж░рж╛"]),
    ("bengali_roman", ["bomi", "bomi howa", "bomi bhav", "bomi kora"]),
    ("tamil", ["ро╡ро╛роирпНродро┐", "ро╡ропро┐ро▒рпНро▒рпБроХрпНроХроЪрокрпНрокрпБ", "роХрпБроороЯрпНроЯро▓рпН", "ро╡ро╛роирпНродро┐ роОроЯрпБродрпНродро▓рпН"]),
    ("tamil_roman", ["vanthi", "vaiyatrukasappu", "kumattal", "vanthi eduthal"]),
    ("telugu", ["р░╡р░╛р░Вр░др▒Бр░▓р▒Б", "р░Хр░┐р░░р▒Бр░Хр▒Бр░др░┐р░ир▒Нр░ир░╛р░ир▒Б", "р░╡р░╛р░Вр░др░┐р░нр░╛р░╡р░В", "р░Ур░Хр░░р░┐р░Вр░Ър░бр░В"]),
    ("telugu_roman", ["vantulu", "kirukutinnanu", "vantibhavam", "okarinchardam"]),
    ("marathi", ["рдЙрд▓рдЯреНрдпрд╛", "рдЙрд▓рдЯреА рд╣реЛрдгреЗ", "рдорд│рдорд│", "рдУрдХрд╛рд░рдгреЗ"]),
    ("marathi_roman", ["ultya", "ulti hone", "malmal", "okarane"]),
    ("gujarati", ["ркЙрк▓ркЯрлА", "ркЫрк╛ркдрлАркорк╛ркВ ркмрк│ркдрк░рк╛", "ркоркЪркХрлЛркб", "ркКрк▓ркЯрк╛рк╡рк╡рлБркВ"]),
    ("gujarati_roman", ["ulti", "chatima baltara", "machkod", "ultavvun"]),
    ("kannada", ["р▓╡р▓╛р▓Вр▓др▓┐", "р▓╣р│Кр▓Яр│Нр▓Яр│Ж р▓ор│Бр▓░р│Бр▓Чр│Б", "р▓Хр▓┐р▓░р│Бр▓Хр│Б", "р▓Йр▓╕р▓┐р▓░р▓╛р▓Я"]),
    ("kannada_roman", ["vanti", "hotte murugu", "kiruku", "usiraat"]),
    ("malayalam", ["р┤Ыр┤░р╡НтАНр┤жр╡Нр┤жр┤┐", "р┤╡р┤╛р┤ир╡Нр┤др┤┐", "р┤Ур┤Хр╡Нр┤Хр┤╛р┤ир┤В", "р┤Хр╡Бр┤ор┤┐р┤│"]),
    ("malayalam_roman", ["charddi", "vanthi", "okkanam", "kumila"]),
    ("punjabi", ["риЙри▓риЯрйА", "риХрйИ", "риЬрйА риори┐риЪри▓ри╛ригри╛", "риЙримриХри╛риИ"]),
    ("punjabi_roman", ["ulti", "kai", "ji michalna", "ubkai"])],
    "High"⟩),
  ("cough", ⟨[
    ("english", ["cough", "coughing", "dry cough", "persistent cough", "wet cough", "chest congestion"]),
    ("hindi_devanagari", ["рдЦрд╛рдВрд╕реА", "рдЦрд╛рдВрд╕реА рдЖрдирд╛", "рд╕реВрдЦреА рдЦрд╛рдВрд╕реА", "рдХрдл", "рдЫрд╛рддреА рдореЗрдВ рдЬрдХрдбрд╝рди", "рдЧрд▓реЗ рдореЗрдВ рдЦрд░рд╛рд╢"]),
    ("hindi_roman", ["khansi", "khansi ana", "sukhi khansi", "kaph", "chati me jakdan", "gale me kharash"]),
    ("bengali", ["ржХрж╛рж╢рж┐", "рж╢рзБржХржирзЛ ржХрж╛рж╢рж┐", "ржХржл", "ржЧрж▓рж╛ржпрж╝ ржЦрзБрж╕ржЦрзБрж╕", "ржмрзБржХрзЗ ржЬржорж╛ржЯ"]),
    ("bengali_roman", ["kashi", "shukno kashi", "kaph", "golay khuskhus", "buke jamat"]),
    ("tamil", ["роЗро░рпБрооро▓рпН", "ро╡ро▒роЯрпНроЯрпБ роЗро░рпБрооро▓рпН", "роХрокроорпН", "рооро╛ро░рпН роЪро│ро┐", "родрпКрогрпНроЯрпИ ро╡ро▓ро┐"]),
    ("tamil_roman", ["irumal", "varattu irumal", "kapam", "mar chali", "thondai vali"]),
    ("telugu", ["р░жр░Чр▒Нр░Чр▒Б", "р░Ор░Вр░бр▒Б р░жр░Чр▒Нр░Чр▒Б", "р░Хр░лр░В", "р░Ыр░╛р░др▒А р░░р░жр▒Нр░жр▒А", "р░Чр▒Кр░Вр░др▒Б р░ир▒Кр░кр▒Нр░кр░┐"]),
    ("telugu_roman", ["daggu", "endu daggu", "kapham", "chati raddi", "gontu noppi"]),
    ("marathi", ["рдЦреЛрдХрд▓рд╛", "рд╕реБрдХрд╛ рдЦреЛрдХрд▓рд╛", "рдХрдл", "рдЫрд╛рддреАрдд рдЬрдбрдгрдШрдбрдг"]),
    ("marathi_roman", ["khokla", "suka khokla", "kaph", "chatit jadangadan"]),
    ("gujarati", ["ркЦрк╛ркВрк╕рлА", "рк╕рлБркХрлА ркЦрк╛ркВрк╕рлА", "ркХркВркаркорк╛ркВ ркЦрк░рк╛рк╢", "ркЫрк╛ркдрлАркорк╛ркВ ркмрк│ркдрк░рк╛"]),
    ("gujarati_roman", ["khansi", "suki khansi", "kanthma kharash", "chatima baltara"]),
    ("kannada", ["р▓Хр│Жр▓ор│Нр▓ор│Б", "р▓Тр▓г р▓Хр│Жр▓ор│Нр▓ор│Б", "р▓Хр▓л", "р▓Ор▓жр│Жр▓пр▓▓р│Нр▓▓р▓┐ р▓ир│Лр▓╡р│Б"]),
    ("kannada_roman", ["kemmu", "ona kemmu", "kapa", "edeyalli novu"]),
    ("malayalam", ["р┤Ър╡Бр┤о", "р┤╡р┤░р┤гр╡Нр┤Я р┤Ър╡Бр┤о", "р┤Хр┤лр┤В", "р┤ир╡Жр┤Юр╡Нр┤Ър┤┐р╡╜ р┤╡р╡Зр┤жр┤и"]),
    ("malayalam_roman", ["chuma", "varanda chuma", "kapham", "nenjil vedana"]),
    ("punjabi", ["риЦрй░риШ", "ри╕рйБрй▒риХрйА риЦрй░риШ", "риХрилри╝", "риЫри╛ридрйА ри╡ри┐рй▒риЪ ринри╛ри░рйАрикрии"]),
    ("punjabi_roman", ["khangh", "sukki khangh", "kaph", "chati vich bharipan"])],
    "Low"⟩),
  ("stomach_pain", ⟨[
    ("english", ["stomach pain", "abdominal pain", "belly ache", "belly pain", "stomach ache", "tummy ache", "gut pain"]),
    ("hindi_devanagari", ["рдкреЗрдЯ рджрд░реНрдж", "рдкреЗрдЯ рдореЗрдВ рджрд░реНрдж", "рдкреЗрдЯрдХреА рджрд░реНрдж", "рдЙрджрд░ рджрд░реНрдж", "рдирд╛рднрд┐ рджрд░реНрдж", "рдЕрдорд╛рд╢рдп рджрд░реНрдж"]),
    ("hindi_roman", ["pet dard", "pet me dard", "petki dard", "udar dard", "nabhi dard", "amashay dard"]),
    ("bengali", ["ржкрзЗржЯрзЗрж░ ржмрзНржпржерж╛", "ржкрзЗржЯ ржжрзБржЦржЫрзЗ", "ржЙржжрж░ ржмрзНржпржерж╛", "ржХрзЛржорж░ ржмрзНржпржерж╛"]),
    ("bengali_roman", ["peter bytha", "pet dukhche", "udar bytha", "komar bytha"]),
    ("tamil", ["ро╡ропро┐ро▒рпНро▒рпБ ро╡ро▓ро┐", "ро╡ропро┐ро▒рпБ ро╡ро▓ро┐", "роЕроЯро┐ро╡ропро┐ро▒рпБ ро╡ро▓ро┐", "роХрпБроЯро▓рпН ро╡ро▓ро┐"]),
    ("tamil_roman", ["vaiyatru vali", "vairu vali", "adivairu vali", "kudal vali"]),
    ("telugu", ["р░Хр░бр▒Бр░кр▒Б р░ир▒Кр░кр▒Нр░кр░┐", "р░кр▒Кр░Яр▒Нр░Я р░ир▒Кр░кр▒Нр░кр░┐", "р░Хр░бр▒Бр░кр▒Бр░▓р▒Л р░ир▒Кр░кр▒Нр░кр░┐", "р░Йр░жр░░ р░ир▒Кр░кр▒Нр░кр░┐"]),
    ("telugu_roman", ["kadupu noppi", "potta noppi", "kadupulo noppi", "udara noppi"]),
    ("marathi", ["рдкреЛрдЯ рджреБрдЦреА", "рдЙрджрд░ рд╡реЗрджрдирд╛", "рдкреЗрдЯрд╛рдд рджреБрдЦреА"]),
    ("marathi_roman", ["pot dukhi", "udar vedana", "petat dukhi"]),
    ("gujarati", ["рккрлЗркЯркорк╛ркВ ркжрлБркЦрк╛рк╡рлЛ", "ркЙркжрк░ ркжрлБркЦрк╛рк╡рлЛ", "рккрлЗркЯ ркжрк░рлНркж"]),
    ("gujarati_roman", ["petma dukhavo", "udar dukhavo", "pet dard"]),
    ("kannada", ["р▓╣р│Кр▓Яр│Нр▓Яр│Ж р▓ир│Лр▓╡р│Б", "р▓Йр▓жр▓░ р▓ир│Лр▓╡р│Б", "р▓кр│Кр▓Яр│Нр▓Я р▓ир│Лр▓╡р│Б"]),
    ("kannada_roman", ["hotte novu", "udara novu", "potta novu"]),
    ("malayalam", ["р┤╡р┤пр╡╝ р┤╡р╡Зр┤жр┤и", "р┤Йр┤жр┤░ р┤╡р╡Зр┤жр┤и", "р┤╡р┤пр┤▒р╡Нр┤▒р┤┐р╡╜ р┤╡р╡Зр┤жр┤и"]),
    ("malayalam_roman", ["vayar vedana", "udara vedana", "vayattil vedana"]),
    ("punjabi", ["риври┐рй▒риб рижри░риж", "рикрйЗриЯ рижри░риж", "риври┐рй▒риб ри╡ри┐рй▒риЪ рижри░риж"]),
    ("punjabi_roman", ["dhid dard", "pet dard", "dhid vich dard"])],
    "Medium"⟩),
  ("weakness", ⟨[
    ("english", ["weakness", "fatigue", "tired", "weak", "exhausted", "lethargic", "no energy"]),
    ("hindi_devanagari", ["рдХрдордЬреЛрд░реА", "рдердХрд╛рди", "рдердХрд╛рд╡рдЯ", "рдХрдордЬреЛрд░ рд▓рдЧрдирд╛", "рджреБрд░реНрдмрд▓рддрд╛", "рд╢рдХреНрддрд┐ рдХрдореА"]),
    ("hindi_roman", ["kamjori", "thakan", "thakavat", "kamjor lagna", "durbalata", "shakti kami"]),
    ("bengali", ["ржжрзВрж░рзНржмрж▓рждрж╛", "ржХрзНрж▓рж╛ржирзНрждрж┐", "ржЕржмрж╕рж╛ржж", "рж╢ржХрзНрждрж┐ ржирзЗржЗ", "ржХрзНрж▓рж╛ржирзНржд рж▓рж╛ржЧржЫрзЗ"]),
    ("bengali_roman", ["durbolata", "klanti", "abosad", "shakti nei", "klanto lagche"]),
    ("tamil", ["рокро▓ро╡рпАройроорпН", "роЪрпЛро░рпНро╡рпБ", "роХро│рпИрокрпНрокрпБ", "ро╡ро▓ро┐роорпИ роЗро▓рпНро▓рпИ"]),
    ("tamil_roman", ["palaveenaam", "sorvu", "kalaippu", "valimai illai"]),
    ("telugu", ["р░мр░▓р░╣р▒Ар░ир░д", "р░Ер░▓р░╕р░Я", "р░╢р░Хр▒Нр░др░┐р░▓р▒Зр░Хр░кр▒Лр░╡р░бр░В", "р░Ер░▓р░┐р░╕р░┐р░кр▒Лр░╡р░бр░В"]),
    ("telugu_roman", ["balaheenat", "alasata", "shaktilekapoadam", "alisipovadam"]),
    ("marathi", ["рдЕрд╢рдХреНрддрдкрдгрд╛", "рджреБрд░реНрдмрд▓рддрд╛", "рдХрдордХреБрд╡рдд", "рдердХрд╡рд╛"]),
    ("marathi_roman", ["ashaktapana", "durbalata", "kamkuvat", "thakva"]),
    ("gujarati", ["ркиркмрк│рк╛ркИ", "ркерк╛ркХ", "ркХркоркЬрлЛрк░рлА", "рк╢ркХрлНркдрк┐ ркиркерлА"]),
    ("gujarati_roman", ["nabai", "thak", "kamjori", "shakti nathi"]),
    ("kannada", ["р▓жр│Мр▓░р│Нр▓мр▓▓р│Нр▓п", "р▓Жр▓пр▓╛р▓╕", "р▓╢р▓Хр│Нр▓др▓┐ р▓Зр▓▓р│Нр▓▓", "р▓мр▓▓ р▓Зр▓▓р│Нр▓▓"]),
    ("kannada_roman", ["daurbalya", "ayasa", "shakti illa", "bala illa"]),
    ("malayalam", ["р┤мр┤▓р┤Хр╡Нр┤╖р┤пр┤В", "р┤Хр╡Нр┤╖р╡Ар┤гр┤В", "р┤др┤│р╡╝р┤Ър╡Нр┤Ъ", "р┤╢р┤Хр╡Нр┤др┤┐ р┤Зр┤▓р╡Нр┤▓"]),
    ("malayalam_roman", ["balakshayam", "ksheenam", "thalarcha", "shakti illa"]),
    ("punjabi", ["риХриориЬри╝рйЛри░рйА", "риериХри╛ри╡риЯ", "ри╕ри╝риХридрйА риири╣рйАриВ", "риХриориЬри╝рйЛри░"]),
    ("punjabi_roman", ["kamjori", "thakavat", "shakti nahin", "kamjor"])],
    "Low"⟩),
  ("breathing_difficulty", ⟨[
    ("english", ["breathless", "breathing problem", "shortness of breath", "difficulty breathing", "hard to breathe", "chest tightness"]),
    ("hindi_devanagari", ["рд╕рд╛рдВрд╕ рд▓реЗрдиреЗ рдореЗрдВ рдХрдард┐рдирд╛рдИ", "рд╕рд╛рдВрд╕ рдлреВрд▓рдирд╛", "рджрдо рдлреВрд▓рдирд╛", "рд╕рд╛рдВрд╕ рдХреА рдХрдореА", "рдЫрд╛рддреА рдореЗрдВ рджрдо рдШреБрдЯрдирд╛"]),
    ("hindi_roman", ["sans lene me kathinai", "sans fulna", "dam fulna", "sans ki kami", "chati me dam ghutna"]),
    ("bengali", ["рж╢рзНржмрж╛рж╕ржХрж╖рзНржЯ", "ржирж┐ржГрж╢рзНржмрж╛рж╕ ржирж┐рждрзЗ ржХрж╖рзНржЯ", "рж╣рж╛ржБржкрж╛ржирж┐", "ржжржо ржмржирзНржз рж▓рж╛ржЧрж╛"]),
    ("bengali_roman", ["shaskashta", "nisshash nite kashta", "hapani", "dam bandha laga"]),
    ("tamil", ["роорпВроЪрпНроЪрпБродрпН родро┐рогро▒ро▓рпН", "роЪрпБро╡ро╛роЪроХрпН роХро╖рпНроЯроорпН", "роорпВроЪрпНроЪрпБ ро╡ро╛роЩрпНроХро▓рпН"]),
    ("tamil_roman", ["moochuth thinaral", "suvasak kashtam", "moochu vangal"]),
    ("telugu", ["р░Кр░кр░┐р░░р░┐ р░Жр░бр░Хр░кр▒Лр░╡р░бр░В", "р░╢р▒Нр░╡р░╛р░╕ р░Хр░╖р▒Нр░Яр░В", "р░Кр░кр░┐р░░р░┐ р░др▒Ар░╕р▒Бр░Хр▒Лр░▓р▒Зр░Хр░кр▒Лр░╡р░бр░В"]),
    ("telugu_roman", ["oopiri aadakapoadam", "shwaasa kashtam", "oopiri teesukoleka poadam"]),
    ("marathi", ["рд╢реНрд╡рд╛рд╕рд╛рдЪреА рдХрдорддрд░рддрд╛", "рдзрд╛рдк рд▓рд╛рдЧрдгреЗ", "рдЧреБрджрдорд░рдгреЗ"]),
    ("marathi_roman", ["shwasachi kamtarta", "dhap lagne", "gudmarne"]),
    ("gujarati", ["рк╢рлНрк╡рк╛рк╕ рк▓рлЗрк╡рк╛ркорк╛ркВ ркдркХрк▓рлАркл", "ркжрко рклрлВрк▓рк╡рлЛ", "ркЫрк╛ркдрлАркорк╛ркВ ркдркХрк▓рлАркл"]),
    ("gujarati_roman", ["shwas levama taklif", "dam fulvo", "chatima taklif"]),
    ("kannada", ["р▓Йр▓╕р▓┐р▓░р▓╛р▓Яр▓ж р▓др│Кр▓Вр▓жр▓░р│Ж", "р▓Йр▓╕р▓┐р▓░р│Бр▓Чр▓Яр│Нр▓Яр│Бр▓╡р▓┐р▓Хр│Ж", "р▓Ор▓жр│Жр▓пр▓▓р│Нр▓▓р▓┐ р▓мр▓┐р▓Чр▓┐р▓д"]),
    ("kannada_roman", ["usiraata tondare", "usirugattuvike", "edeyalli bigita"]),
    ("malayalam", ["р┤╢р╡Нр┤╡р┤╛р┤╕р┤др┤Яр┤╕р╡Нр┤╕р┤В", "р┤╢р╡Нр┤╡р┤╕р┤┐р┤Хр╡Нр┤Хр┤╛р╡╗ р┤мр╡Бр┤жр╡Нр┤зр┤┐р┤ор╡Бр┤Яр╡Нр┤Яр╡Н", "р┤ир╡Жр┤Юр╡Нр┤Ър╡Н р┤Юр╡Жр┤░р┤┐р┤╡р╡Н"]),
    ("malayalam_roman", ["shvasathadassam", "shvasikkan buddhimuttu", "nenj njeriv"]),
    ("punjabi", ["ри╕ри╛ри╣ ри▓рйИриг ри╡ри┐рй▒риЪ ридриХри▓рйАрилри╝", "рижрио рилрйБрй▒ри▓ригри╛", "ри╕ри╛ри╣ риЪрйЬриири╛"]),
    ("punjabi_roman", ["saah lain vich takleef", "dam phullna", "saah charna"])],
    "High"⟩),
  ("nausea", ⟨[
    ("english", ["nausea", "nauseous", "feel sick", "sick feeling", "queasiness", "feel like vomiting"]),
    ("hindi_devanagari", ["рдорддрд▓реА", "рдЬреА рдорд┐рдЪрд▓рд╛рдирд╛", "рдЙрдмрдХрд╛рдИ", "рдЬреА рдШрдмрд░рд╛рдирд╛", "рджрд┐рд▓ рдЙрдЫрд▓рдирд╛"]),
    ("hindi_roman", ["matli", "ji michalna", "ubkai", "ji ghabrana", "dil uchalna"]),
    ("bengali", ["ржмржорж┐ ржнрж╛ржм", "ржЬрж┐ ржЧрзБрж▓рж┐ржпрж╝рзЗ ржЖрж╕рж╛", "ржмржорж┐ ржмржорж┐ рж▓рж╛ржЧрж╛", "ржмрзБржХ ржЬрзНржмрж╛рж▓рж╛"]),
    ("bengali_roman", ["bomi bhaav", "ji guliye asha", "bomi bomi laga", "buk jwala"]),
    ("tamil", ["роХрпБроороЯрпНроЯро▓рпН", "ро╡ро╛роирпНродро┐ роЙрогро░рпНро╡рпБ", "ро╡ропро┐ро▒рпНро▒рпБроХрпНроХроЪрокрпНрокрпБ"]),
    ("tamil_roman", ["kumattal", "vanthi unarvu", "vaiyatrukasappu"]),
    ("telugu", ["р░╡р░╛р░Вр░др░┐р░нр░╛р░╡р░В", "р░Ер░╕р░╣р▒Нр░пр░В", "р░Хр░┐р░░р▒Бр░Хр▒Бр░др░┐р░ир▒Нр░ир░Яр▒Нр░▓р▒Б"]),
    ("telugu_roman", ["vantibhaavam", "asahyam", "kirukutinnattlu"]),
    ("marathi", ["рдорд│рдорд│", "рдЬреА рдорд│рдорд│рдгреЗ", "рдЙрд▓рдЯреНрдпрд╛ рд╕рд╛рд░рдЦреЗ рд╡рд╛рдЯрдгреЗ"]),
    ("marathi_roman", ["malmal", "ji malmalne", "ultya sarakhe vatne"]),
    ("gujarati", ["ркЙркмркХрк╛рк╡рлЛ", "ркЬрлА ркШркмрк░рк╛рк╡рлЛ", "ркЙрк▓ркЯрлА ркЬрлЗрк╡рлБркВ рк▓рк╛ркЧрк╡рлБркВ"]),
    ("gujarati_roman", ["ubkavo", "ji ghabravo", "ulti jevu lagvu"]),
    ("kannada", ["р▓╡р▓╛р▓Вр▓др▓┐ р▓нр▓╛р▓╡", "р▓Ьр│Ар▓░р│Нр▓г р▓╕р▓ор▓╕р│Нр▓пр│Ж", "р▓Йр▓╕р▓┐р▓░р▓╛р▓Яр▓ж р▓др│Кр▓Вр▓жр▓░р│Ж"]),
    ("kannada_roman", ["vanti bhaava", "jeerna samasye", "usiraata tondare"]),
    ("malayalam", ["р┤Ур┤Хр╡Нр┤Хр┤╛р┤и р┤╡р┤░р┤┐р┤Х", "р┤╡р╡Зр┤гр╡Нр┤Яр┤╛р┤др╡Нр┤д р┤др╡Лр┤ир╡Нр┤ир┤▓р╡Н", "р┤Хр╡Бр┤ор┤┐р┤│ р┤╡р┤░р┤┐р┤Х"]),
    ("malayalam_roman", ["okkana varika", "vendatha thonnal", "kumila varika"]),
    ("punjabi", ["риЬрйА риори┐риЪри▓ри╛ригри╛", "риЙримриХри╛риИ", "рижри┐ри▓ риШримри░ри╛ригри╛"]),
    ("punjabi_roman", ["ji michalna", "ubkai", "dil ghabrana"])],
    "Medium"⟩)
]

/-- `detect_symptoms_multilingual`: scan the database in order, dedupe by
symptom name, track the max severity label, and fall back to the synthetic
`general_illness` entry when nothing matched. -/
def detect_symptoms_multilingual (message : String) :
    List DetectedSymptom × String :=
  let message_lower := (lowerStr message).toList
  let detected_languages := detect_language message
  let scan := symptom_database.foldl (fun (acc : List DetectedSymptom × String) entry =>
    match findLangMatch entry.2 detected_languages message_lower with
    | none => acc
    | some conf =>
      if acc.1.any (fun s => s.name == entry.1) then acc
      else
        let sev := entry.2.severity
        let max_severity :=
          if sev == "High" then "High"
          else if sev == "Medium" && acc.2 != "High" then "Medium"
          else acc.2
        (acc.1 ++ [⟨entry.1, sev, conf, detected_languages⟩], max_severity))
    ([], "Low")
  if scan.1.isEmpty then
    ([⟨"general_illness", "Low", (1/2), detected_languages⟩], scan.2)
  else scan

/-! ## Helper definitions for concrete instances -/

set_option maxRecDepth 10000

/-- Value lookup in a `(disease, probability)` map. -/
def probOf (l : List (String × ℚ)) (k : String) : ℚ :=
  ((l.find? (fun p => p.1 == k)).map (fun p => p.2)).getD 0

/-- A symptom mention with the extractor's default duration, progression,
confidence and temporal pattern. -/
def mkSymptom (n : String) (sev : ℚ) : SymptomFeature :=
  ⟨n, sev, 24, "stable", (8/10), "acute"⟩

/-- Signature lookup by disease name. -/
def sigOf (n : String) : DiseaseSignature :=
  ((disease_signatures.find? (fun d => d.1 == n)).map (fun d => d.2)).getD
    ⟨[], [], [], [], [], [], (0, 0), 0⟩

/-! ## General lemmas -/

theorem le_foldl_of_step {γ : Type} (step : ℚ → γ → ℚ) (h : ∀ b x, b ≤ step b x) :
    ∀ (L : List γ) (b : ℚ), b ≤ L.foldl step b
  | [], _ => le_refl _
  | x :: L, b => le_trans (h b x) (le_foldl_of_step step h L (step b x))

theorem foldl_mem_invariant {α β : Type} (L0 : List α) (P : β → Prop)
    (step : List β → α → List β)
    (hstep : ∀ acc x s, x ∈ L0 → s ∈ step acc x → s ∈ acc ∨ P s) :
    ∀ (L : List α), (∀ x ∈ L, x ∈ L0) → ∀ (acc : List β),
      (∀ t ∈ acc, P t) → ∀ s ∈ L.foldl step acc, P s := by
  intro L
  induction L with
  | nil => intro _ acc hacc s hs; exact hacc s hs
  | cons x xs ih =>
    intro hsub acc hacc s hs
    refine ih (fun y hy => hsub y (List.mem_cons_of_mem _ hy)) (step acc x) ?_ s hs
    intro t ht
    rcases hstep acc x t (hsub x (List.mem_cons_self _ _)) ht with h | h
    · exact hacc t h
    · exact h

theorem foldl_pos_of_mem {γ : Type} (L : List γ) (f : ℚ → γ → ℚ)
    (hf : ∀ a x, x ∈ L → 0 < a → 0 < f a x) :
    ∀ a, 0 < a → 0 < L.foldl f a := by
  induction L with
  | nil => intro a ha; exact ha
  | cons x xs ih =>
    intro a ha
    exact ih (fun b y hy hb => hf b y (List.mem_cons_of_mem _ hy) hb) (f a x)
      (hf a x (List.mem_cons_self _ _) ha)

theorem foldl_mul_pow (p : String → Bool) (c : ℚ) :
    ∀ (L : List String) (a : ℚ),
      L.foldl (fun acc e => if p e then acc * c else acc) a = a * c ^ L.countP p := by
  intro L
  induction L with
  | nil => intro a; simp
  | cons x xs ih =>
    intro a
    simp only [List.foldl_cons, List.countP_cons]
    by_cases hx : p x
    · simp only [hx, if_true, ih, pow_succ]; ring
    · simp [hx, ih]

theorem list_sum_div (l : List ℚ) (t : ℚ) :
    (l.map (fun x => x / t)).sum = l.sum / t := by
  induction l with
  | nil => simp
  | cons x xs ih => simp [ih, add_div]

theorem mul_len_le_sum (a : ℚ) :
    ∀ (l : List ℚ), (∀ x ∈ l, a ≤ x) → (l.length : ℚ) * a ≤ l.sum := by
  intro l
  induction l with
  | nil => intro _; simp
  | cons x xs ih =>
    intro h
    have hx := h x (List.mem_cons_self _ _)
    have hxs := ih (fun y hy => h y (List.mem_cons_of_mem _ hy))
    simp only [List.length_cons, List.sum_cons, Nat.cast_succ]
    nlinarith

theorem sum_le_mul_len (b : ℚ) :
    ∀ (l : List ℚ), (∀ x ∈ l, x ≤ b) → l.sum ≤ (l.length : ℚ) * b := by
  intro l
  induction l with
  | nil => intro _; simp
  | cons x xs ih =>
    intro h
    have hx := h x (List.mem_cons_self _ _)
    have hxs := ih (fun y hy => h y (List.mem_cons_of_mem _ hy))
    simp only [List.length_cons, List.sum_cons, Nat.cast_succ]
    nlinarith

theorem le_listMean (a : ℚ) (l : List ℚ) (hne : l ≠ []) (h : ∀ x ∈ l, a ≤ x) :
    a ≤ listMean l := by
  unfold listMean
  have hlen : 0 < (l.length : ℚ) := by
    have := List.length_pos.mpr hne
    exact_mod_cast this
  rw [le_div_iff₀ hlen]
  have := mul_len_le_sum a l h
  linarith

theorem listMean_le (b : ℚ) (l : List ℚ) (hne : l ≠ []) (h : ∀ x ∈ l, x ≤ b) :
    listMean l ≤ b := by
  unfold listMean
  have hlen : 0 < (l.length : ℚ) := by
    have := List.length_pos.mpr hne
    exact_mod_cast this
  rw [div_le_iff₀ hlen]
  have := sum_le_mul_len b l h
  linarith

theorem valsSum_pos (l : List (String × ℚ)) (hne : l ≠ [])
    (h : ∀ kv ∈ l, 0 < kv.2) : 0 < valsSum l := by
  match l, hne with
  | kv :: rest, _ =>
    unfold valsSum
    simp only [List.map_cons, List.sum_cons]
    have h1 : 0 < kv.2 := h kv (List.mem_cons_self _ _)
    have h2 : 0 ≤ (rest.map Prod.snd).sum := by
      apply List.sum_nonneg
      intro x hx
      obtain ⟨kv', hkv', rfl⟩ := List.mem_map.mp hx
      exact le_of_lt (h kv' (List.mem_cons_of_mem _ hkv'))
    linarith

theorem valsSum_map_div (l : List (String × ℚ)) (t : ℚ) :
    valsSum (l.map (fun kv => (kv.1, kv.2 / t))) = valsSum l / t := by
  unfold valsSum
  rw [List.map_map,
    show (Prod.snd ∘ fun kv : String × ℚ => (kv.1, kv.2 / t)) =
      (fun x => x / t) ∘ Prod.snd from rfl,
    ← List.map_map, list_sum_div]

/-! ## Bounds on the scoring components -/

theorem computeSeverity_bounds (tl : List Char) (entry : SymptomKeywordEntry) :
    5 ≤ computeSeverity tl entry ∧ computeSeverity tl entry ≤ 10 := by
  unfold computeSeverity
  constructor
  · apply le_min _ (by norm_num)
    refine le_trans (le_foldl_of_step _ ?_ severity_patterns 5) (le_foldl_of_step _ ?_ _ _)
    · intro b x; dsimp only; split
      · exact le_max_left _ _
      · exact le_refl b
    · intro b x; dsimp only; split
      · exact le_max_left _ _
      · exact le_refl b
  · exact min_le_right _ _

theorem matchRatio_nonneg (listed names : List String) : 0 ≤ matchRatio listed names := by
  unfold matchRatio
  split
  · positivity
  · exact le_refl 0

theorem matchRatio_le_one (listed names : List String) : matchRatio listed names ≤ 1 := by
  unfold matchRatio
  split
  · apply div_le_one_of_le
    · exact_mod_cast List.length_filter_le _ _
    · positivity
  · norm_num
theorem sevMapOf_snd_mem (symptoms : List SymptomFeature) :
    ∀ kv ∈ sevMapOf symptoms, ∃ s ∈ symptoms, kv.2 = s.severity := by
  unfold sevMapOf
  refine foldl_mem_invariant symptoms _ _ ?_ symptoms (fun x hx => hx) [] (by simp)
  intro acc x kv hx hkv
  split at hkv
  · rcases List.mem_map.mp hkv with ⟨kv', hkv', rfl⟩
    split
    · exact Or.inr ⟨x, hx, rfl⟩
    · exact Or.inl hkv'
  · rcases List.mem_append.mp hkv with h | h
    · exact Or.inl h
    · simp only [List.mem_singleton] at h
      exact Or.inr ⟨x, hx, by rw [h]⟩

theorem severityWeightOf_ge_half (symptoms : List SymptomFeature)
    (h : ∀ s ∈ symptoms, 0 ≤ s.severity) : (1/2) ≤ severityWeightOf symptoms := by
  simp only [severityWeightOf]
  split
  · rename_i hlen
    have hmean : 0 ≤ listMean ((sevMapOf symptoms).map Prod.snd) := by
      apply le_listMean
      · intro hc
        apply hlen
        have := congrArg List.length hc
        simpa using this
      · intro x hx
        obtain ⟨kv, hkv, rfl⟩ := List.mem_map.mp hx
        obtain ⟨s, hs, heq⟩ := sevMapOf_snd_mem symptoms kv hkv
        rw [heq]; exact h s hs
    linarith
  · norm_num

theorem severityWeightOf_le_one (symptoms : List SymptomFeature)
    (h : ∀ s ∈ symptoms, s.severity ≤ 10) : severityWeightOf symptoms ≤ 1 := by
  simp only [severityWeightOf]
  split
  · rename_i hlen
    have hmean : listMean ((sevMapOf symptoms).map Prod.snd) ≤ 10 := by
      apply listMean_le
      · intro hc
        apply hlen
        have := congrArg List.length hc
        simpa using this
      · intro x hx
        obtain ⟨kv, hkv, rfl⟩ := List.mem_map.mp hx
        obtain ⟨s, hs, heq⟩ := sevMapOf_snd_mem symptoms kv hkv
        rw [heq]; exact h s hs
    linarith
  · norm_num

theorem clinical_evidence_nonneg (symptoms : List SymptomFeature)
    (sig : DiseaseSignature) (h0 : ∀ s ∈ symptoms, 0 ≤ s.severity) :
    0 ≤ _calculate_clinical_evidence symptoms sig := by
  unfold _calculate_clinical_evidence
  have h1 := matchRatio_nonneg sig.primary_symptoms (symptoms.map (·.name))
  have h2 := matchRatio_nonneg sig.secondary_symptoms (symptoms.map (·.name))
  have h3 := severityWeightOf_ge_half symptoms h0
  nlinarith

theorem seasonal_pos : ∀ i : Fin 6, ∀ m : Fin 12, 0 < seasonalProb i.val m.val := by decide

theorem disease_signatures_data_ok :
    ∀ p ∈ disease_signatures.enum, p.1 < 6 ∧
      (∀ kv ∈ p.2.2.environmental_correlation, 0 ≤ kv.2) ∧
      (∀ kv ∈ p.2.2.demographic_risk, 0 ≤ kv.2) := by decide

theorem env_adjustment_pos (env : EnvironmentalContext) (sig : DiseaseSignature)
    (idx : Nat) (hidx : idx < 6)
    (h : ∀ kv ∈ sig.environmental_correlation, 0 ≤ kv.2) :
    0 < _calculate_environmental_adjustment env sig idx := by
  simp only [_calculate_environmental_adjustment]
  have hs : ∀ m : Fin 12, 0 < seasonalProb idx m.val := fun m => seasonal_pos ⟨idx, hidx⟩ m
  apply lt_min _ (by norm_num)
  apply foldl_pos_of_mem
  · intro a kv hkv ha
    have hc := h kv hkv
    split
    · nlinarith
    · split
      · nlinarith
      · split
        · nlinarith
        · split
          · nlinarith
          · exact ha
  · have h0 := hs ⟨0, by norm_num⟩
    have h3 := hs ⟨3, by norm_num⟩
    have h6 := hs ⟨6, by norm_num⟩
    have h9 := hs ⟨9, by norm_num⟩
    split
    · linarith
    · split
      · linarith
      · split
        · linarith
        · split
          · linarith
          · norm_num

theorem getRisk_nonneg (sig : DiseaseSignature) (k : String)
    (h : ∀ kv ∈ sig.demographic_risk, 0 ≤ kv.2) : 0 ≤ getRisk sig k := by
  unfold getRisk riskLookup
  cases hf : sig.demographic_risk.find? (fun kv => kv.1 == k) with
  | none => simp
  | some kv =>
    simp only [Option.map_some', Option.getD_some]
    exact h kv (List.mem_of_find?_eq_some hf)

theorem demoAgeAdj_pos (p : PatientContext) (sig : DiseaseSignature) (a : ℚ)
    (h : ∀ kv ∈ sig.demographic_risk, 0 ≤ kv.2) (ha : 0 < a) :
    0 < demoAgeAdj p sig a := by
  unfold demoAgeAdj
  have h1 := getRisk_nonneg sig "children_under_5" h
  have h2 := getRisk_nonneg sig "elderly" h
  have h3 := getRisk_nonneg sig "young_adults" h
  have h4 := getRisk_nonneg sig "school_age" h
  split
  · nlinarith
  · split
    · nlinarith
    · split
      · nlinarith
      · split
        · nlinarith
        · exact ha

theorem demoGenderAdj_pos (p : PatientContext) (sig : DiseaseSignature) (a : ℚ)
    (h : ∀ kv ∈ sig.demographic_risk, 0 ≤ kv.2) (ha : 0 < a) :
    0 < demoGenderAdj p sig a := by
  unfold demoGenderAdj
  have h1 := getRisk_nonneg sig "pregnant_women" h
  split
  · split
    · nlinarith
    · exact ha
  · exact ha

theorem demoOccupationAdj_pos (p : PatientContext) (sig : DiseaseSignature) (a : ℚ)
    (h : ∀ kv ∈ sig.demographic_risk, 0 ≤ kv.2) (ha : 0 < a) :
    0 < demoOccupationAdj p sig a := by
  unfold demoOccupationAdj
  have h1 := getRisk_nonneg sig "food_handlers" h
  have h2 := getRisk_nonneg sig "outdoor_workers" h
  split
  · nlinarith
  · split
    · nlinarith
    · exact ha

theorem demoTravelAdj_pos (p : PatientContext) (sig : DiseaseSignature) (a : ℚ)
    (h : ∀ kv ∈ sig.demographic_risk, 0 ≤ kv.2) (ha : 0 < a) :
    0 < demoTravelAdj p sig a := by
  unfold demoTravelAdj
  have h1 := getRisk_nonneg sig "travelers" h
  split
  · nlinarith
  · exact ha

theorem demo_adjustment_pos (p : PatientContext) (sig : DiseaseSignature)
    (h : ∀ kv ∈ sig.demographic_risk, 0 ≤ kv.2) :
    0 < _calculate_demographic_adjustment p sig := by
  unfold _calculate_demographic_adjustment
  exact lt_min (demoTravelAdj_pos p sig _ h (demoOccupationAdj_pos p sig _ h
    (demoGenderAdj_pos p sig _ h (demoAgeAdj_pos p sig 1 h one_pos)))) (by norm_num)

theorem priorScore_pos (pc : Option PatientContext) (ec : Option EnvironmentalContext)
    (month : Fin 12) (idx : Nat) (sig : DiseaseSignature) (hidx : idx < 6)
    (henv : ∀ kv ∈ sig.environmental_correlation, 0 ≤ kv.2)
    (hdem : ∀ kv ∈ sig.demographic_risk, 0 ≤ kv.2) :
    0 < priorScore pc ec month idx sig := by
  unfold priorScore
  have hseason : 0 < seasonalProb idx month.val := seasonal_pos ⟨idx, hidx⟩ month
  have hp1 : 0 < (1/10 : ℚ) * seasonalProb idx month.val := by positivity
  cases ec with
  | none =>
    cases pc with
    | none => exact hp1
    | some p => exact mul_pos hp1 (demo_adjustment_pos p sig hdem)
  | some env =>
    have hp2 := mul_pos hp1 (env_adjustment_pos env sig idx hidx henv)
    cases pc with
    | none => exact hp2
    | some p => exact mul_pos hp2 (demo_adjustment_pos p sig hdem)

theorem posteriorScore_eq (symptoms : List SymptomFeature) (pc : Option PatientContext)
    (ec : Option EnvironmentalContext) (month : Fin 12) (idx : Nat)
    (sig : DiseaseSignature) :
    posteriorScore symptoms pc ec month idx sig =
      (_calculate_clinical_evidence symptoms sig * (7/10) +
        priorScore pc ec month idx sig * (3/10)) *
        (1/10) ^ (sig.exclusionary_symptoms.countP
          (fun e => (symptoms.map (·.name)).contains e)) *
        2 ^ (sig.pathognomonic_signs.countP
          (fun g => (symptoms.map (·.name)).contains g)) := by
  simp only [posteriorScore]
  rw [foldl_mul_pow, foldl_mul_pow]

theorem posteriorScore_pos (symptoms : List SymptomFeature) (pc : Option PatientContext)
    (ec : Option EnvironmentalContext) (month : Fin 12) (idx : Nat)
    (sig : DiseaseSignature) (hidx : idx < 6)
    (henv : ∀ kv ∈ sig.environmental_correlation, 0 ≤ kv.2)
    (hdem : ∀ kv ∈ sig.demographic_risk, 0 ≤ kv.2)
    (hsev : ∀ s ∈ symptoms, 0 ≤ s.severity) :
    0 < posteriorScore symptoms pc ec month idx sig := by
  rw [posteriorScore_eq]
  have hce := clinical_evidence_nonneg symptoms sig hsev
  have hpr := priorScore_pos pc ec month idx sig hidx henv hdem
  have hbase : 0 < _calculate_clinical_evidence symptoms sig * (7/10) +
      priorScore pc ec month idx sig * (3/10) := by nlinarith
  positivity

theorem rawDiseaseScore_pos (symptoms : List SymptomFeature) (pc : Option PatientContext)
    (ec : Option EnvironmentalContext) (month : Fin 12) (idx : Nat)
    (sig : DiseaseSignature) (hidx : idx < 6)
    (henv : ∀ kv ∈ sig.environmental_correlation, 0 ≤ kv.2)
    (hdem : ∀ kv ∈ sig.demographic_risk, 0 ≤ kv.2)
    (hsev : ∀ s ∈ symptoms, 0 ≤ s.severity) :
    0 < rawDiseaseScore symptoms pc ec month idx sig := by
  unfold rawDiseaseScore
  exact lt_min (posteriorScore_pos symptoms pc ec month idx sig hidx henv hdem hsev)
    one_pos

/-! ## Claims -/

/-- C1: for every non-empty list of extracted symptoms (any optional
patient/environmental context, any month), the disease probability map
returned by `calculate_bayesian_probability` sums to exactly 1 (exact
rational arithmetic; "within floating tolerance" in the float original), and
the all-zero skip branch is unreachable: the pre-normalization scores have a
strictly positive sum, because every disease's prior is strictly positive
(0.1 base times positive seasonal and adjustment factors). -/
theorem C1_normalization (symptoms : List SymptomFeature) (pc : Option PatientContext)
    (ec : Option EnvironmentalContext) (month : Fin 12)
    (hne : symptoms ≠ []) (hsev : ∀ s ∈ symptoms, 0 ≤ s.severity) :
    0 < valsSum (disease_probabilities_raw symptoms pc ec month) ∧
    valsSum (calculate_bayesian_probability symptoms pc ec month) = 1 := by
  have hpos : ∀ kv ∈ disease_probabilities_raw symptoms pc ec month, 0 < kv.2 := by
    intro kv hkv
    unfold disease_probabilities_raw at hkv
    obtain ⟨ip, hip, rfl⟩ := List.mem_map.mp hkv
    obtain ⟨hidx, henv, hdem⟩ := disease_signatures_data_ok ip hip
    exact rawDiseaseScore_pos symptoms pc ec month ip.1 ip.2.2 hidx henv hdem hsev
  have hne' : disease_probabilities_raw symptoms pc ec month ≠ [] := by
    unfold disease_probabilities_raw
    simp [disease_signatures]
  have htot := valsSum_pos _ hne' hpos
  refine ⟨htot, ?_⟩
  simp only [calculate_bayesian_probability]
  rw [if_pos htot, valsSum_map_div, div_self (ne_of_gt htot)]

/-- Witness for C1 at the single extracted mention of `"headache"`. -/
theorem C1_normalization_witness :
    ([mkSymptom "headache" 5] ≠ ([] : List SymptomFeature) ∧
      (∀ s ∈ [mkSymptom "headache" 5], 0 ≤ s.severity)) ∧
    0 < valsSum (disease_probabilities_raw [mkSymptom "headache" 5] none none 0) ∧
    valsSum (calculate_bayesian_probability [mkSymptom "headache" 5] none none 0) = 1 :=
  ⟨⟨by decide, by decide⟩,
    C1_normalization [mkSymptom "headache" 5] none none 0 (by decide) (by decide)⟩

/-- C2: `classify_disease` never raises and never returns null: for every
input it returns the full result dict, the `insufficient_information` dict
(confidence 0.1), or the `classification_error` dict produced by the
top-level `except` handler (confidence 0.0, carrying the error message). -/
theorem C2_never_crashes (text : String) (pc : Option PatientContext)
    (ec : Option EnvironmentalContext) (month : Fin 12) :
    (∃ r, classify_disease text pc ec month = .full r) ∨
    classify_disease text pc ec month = .insufficient_information (1/10) [] false
      "More symptom information needed for accurate diagnosis" ∨
    (∃ e, classify_disease text pc ec month = .classification_error 0 e
      "System error occurred. Please consult healthcare provider.") := by
  simp only [classify_disease]
  split
  · right; left; rfl
  · cases h : classifySteps (extract_symptoms_from_text text pc) pc ec month with
    | error e => right; right; exact ⟨e, rfl⟩
    | ok r => left; exact ⟨r, rfl⟩

/-- C3: whenever extraction finds no symptom (the empty string included),
`classify_disease` returns the `insufficient_information` dict with
confidence exactly 0.1, empty differential diagnoses, `anomaly_detected`
false and the canned recommendation, raising no exception. -/
theorem C3_empty_extraction (text : String) (pc : Option PatientContext)
    (ec : Option EnvironmentalContext) (month : Fin 12)
    (h : extract_symptoms_from_text text pc = []) :
    classify_disease text pc ec month = .insufficient_information (1/10) [] false
      "More symptom information needed for accurate diagnosis" := by
  simp [classify_disease, h]

/-- Witness for C3 at the empty message. -/
theorem C3_empty_extraction_witness :
    extract_symptoms_from_text "" none = [] ∧
    classify_disease "" none none 0 = .insufficient_information (1/10) [] false
      "More symptom information needed for accurate diagnosis" :=
  ⟨by decide, C3_empty_extraction "" none none 0 (by decide)⟩

/-! ## Lemmas about adding one symptom to the list -/

theorem contains_true_iff (l : List String) (a : String) :
    l.contains a = true ↔ a ∈ l := by
  constructor
  · intro h; simpa using h
  · intro h; exact List.elem_eq_true_of_mem h
theorem contains_eq_decide_mem (l : List String) (a : String) :
    l.contains a = decide (a ∈ l) := by
  by_cases h : a ∈ l
  · rw [(contains_true_iff l a).mpr h]; simp [h]
  · rw [show l.contains a = false by simpa using h]; simp [h]

theorem countP_contains_append (L names : List String) (x : String) (hx : x ∉ names) :
    L.countP (fun e => (names ++ [x]).contains e) =
      L.countP (fun e => names.contains e) + L.count x := by
  simp only [contains_eq_decide_mem]
  induction L with
  | nil => simp
  | cons e es ih =>
    rw [List.countP_cons, List.countP_cons, List.count_cons, ih]
    by_cases hex : e = x
    · subst hex
      have h2 : e ∉ names := hx
      simp [h2]
      omega
    · simp only [List.mem_append, List.mem_singleton]
      by_cases he : e ∈ names
      · simp [he, hex]
        omega
      · simp [he, hex]

theorem countP_contains_append_same (L names : List String) (x : String)
    (hL : x ∉ L) :
    L.countP (fun e => (names ++ [x]).contains e) =
      L.countP (fun e => names.contains e) := by
  apply List.countP_congr
  intro e he
  have hex : e ≠ x := fun h => hL (h ▸ he)
  rw [contains_true_iff, contains_true_iff]
  simp [hex]

theorem filterLen_contains_append_same (listed names : List String) (x : String)
    (hl : x ∉ listed) :
    (listed.filter (fun e => (names ++ [x]).contains e)).length =
      (listed.filter (fun e => names.contains e)).length := by
  rw [← List.countP_eq_length_filter, ← List.countP_eq_length_filter]
  exact countP_contains_append_same listed names x hl

theorem matchRatio_append_eq (listed names : List String) (x : String)
    (hl : x ∉ listed) :
    matchRatio listed (names ++ [x]) = matchRatio listed names := by
  unfold matchRatio
  rw [filterLen_contains_append_same listed names x hl]

theorem matchRatio_mono_append (listed names : List String) (x : String) :
    matchRatio listed names ≤ matchRatio listed (names ++ [x]) := by
  unfold matchRatio
  split
  · rename_i hlen
    have hpos : (0:ℚ) < (listed.length : ℚ) := by
      have : 0 < listed.length := Nat.pos_of_ne_zero hlen
      exact_mod_cast this
    gcongr
    rw [← List.countP_eq_length_filter, ← List.countP_eq_length_filter]
    apply List.countP_mono_left
    intro e _ h
    rw [contains_true_iff] at h ⊢
    exact List.mem_append_left _ h
  · exact le_refl 0

/-- The message of the C4 counterexample: every cholera primary and secondary
symptom at severity 10 (as extraction would produce for the strongest match). -/
def exampleCholeraSymptoms : List SymptomFeature :=
  [mkSymptom "watery_diarrhea" 10, mkSymptom "severe_dehydration" 10,
   mkSymptom "rice_water_stools" 10, mkSymptom "vomiting" 10,
   mkSymptom "rapid_fluid_loss" 10, mkSymptom "muscle_cramps" 10]

/-- C4 as stated is false: with the full cholera picture, adding the
exclusionary symptom `high_fever` leaves cholera's normalized output score
(≈ 0.54) far above 10% of the score without it (≈ 0.089), because the
without-call's posterior 2.818 is clamped to 1.0 before normalization and
the two calls normalize by different totals. -/
theorem C4_counterexample :
    ¬ (probOf (calculate_bayesian_probability
        (exampleCholeraSymptoms ++ [mkSymptom "high_fever" 10]) none none 0) "cholera" ≤
      (1/10) * probOf (calculate_bayesian_probability
        exampleCholeraSymptoms none none 0) "cholera") := by decide

/-- C4 amended: the 10% bound holds for the stored pre-normalization scores
when the added exclusionary symptom leaves the severity average unchanged and
the without-call's posterior is below the 1.0 clamp.  `exSym` occurs once in
the disease's exclusionary list and is not one of its primary, secondary or
pathognomonic symptoms (true of every signature in the table). -/
theorem C4_amended (S : List SymptomFeature) (pc : Option PatientContext)
    (ec : Option EnvironmentalContext) (month : Fin 12) (idx : Nat)
    (sig : DiseaseSignature) (exSym : SymptomFeature)
    (hcount : sig.exclusionary_symptoms.count exSym.name = 1)
    (hnp : exSym.name ∉ sig.primary_symptoms)
    (hns : exSym.name ∉ sig.secondary_symptoms)
    (hng : exSym.name ∉ sig.pathognomonic_signs)
    (hnm : exSym.name ∉ S.map (·.name))
    (hsw : severityWeightOf (S ++ [exSym]) = severityWeightOf S)
    (hclamp : posteriorScore S pc ec month idx sig ≤ 1) :
    rawDiseaseScore (S ++ [exSym]) pc ec month idx sig ≤
      (1/10) * rawDiseaseScore S pc ec month idx sig := by
  have hnames : (S ++ [exSym]).map (·.name) = S.map (·.name) ++ [exSym.name] := by simp
  have hce : _calculate_clinical_evidence (S ++ [exSym]) sig =
      _calculate_clinical_evidence S sig := by
    simp only [_calculate_clinical_evidence]
    rw [hnames, hsw, matchRatio_append_eq _ _ _ hnp, matchRatio_append_eq _ _ _ hns]
  have hpen : sig.exclusionary_symptoms.countP
      (fun e => ((S ++ [exSym]).map (·.name)).contains e) =
      sig.exclusionary_symptoms.countP (fun e => (S.map (·.name)).contains e) + 1 := by
    rw [hnames, countP_contains_append _ _ _ hnm, hcount]
  have hboost : sig.pathognomonic_signs.countP
      (fun g => ((S ++ [exSym]).map (·.name)).contains g) =
      sig.pathognomonic_signs.countP (fun g => (S.map (·.name)).contains g) := by
    rw [hnames, countP_contains_append_same _ _ _ hng]
  have hpost : posteriorScore (S ++ [exSym]) pc ec month idx sig =
      (1/10) * posteriorScore S pc ec month idx sig := by
    rw [posteriorScore_eq, posteriorScore_eq, hce, hpen, hboost, pow_succ]
    ring
  unfold rawDiseaseScore
  rw [hpost, min_eq_left hclamp]
  exact min_le_left _ _

/-- Witness for C4 amended: one cholera primary symptom at severity 5 plus
the exclusionary `high_fever` at severity 5 (severity average unchanged). -/
theorem C4_amended_witness :
    ((sigOf "cholera").exclusionary_symptoms.count "high_fever" = 1 ∧
      "high_fever" ∉ (sigOf "cholera").primary_symptoms ∧
      "high_fever" ∉ (sigOf "cholera").secondary_symptoms ∧
      "high_fever" ∉ (sigOf "cholera").pathognomonic_signs ∧
      "high_fever" ∉ [mkSymptom "watery_diarrhea" 5].map (·.name) ∧
      severityWeightOf ([mkSymptom "watery_diarrhea" 5] ++ [mkSymptom "high_fever" 5]) =
        severityWeightOf [mkSymptom "watery_diarrhea" 5] ∧
      posteriorScore [mkSymptom "watery_diarrhea" 5] none none 0 0 (sigOf "cholera") ≤ 1) ∧
    rawDiseaseScore ([mkSymptom "watery_diarrhea" 5] ++ [mkSymptom "high_fever" 5])
        none none 0 0 (sigOf "cholera") ≤
      (1/10) * rawDiseaseScore [mkSymptom "watery_diarrhea" 5] none none 0 0 (sigOf "cholera") :=
  ⟨⟨by decide, by decide, by decide, by decide, by decide, by decide, by decide⟩,
    C4_amended [mkSymptom "watery_diarrhea" 5] none none 0 0 (sigOf "cholera")
      (mkSymptom "high_fever" 5) (by decide) (by decide) (by decide) (by decide)
      (by decide) (by decide) (by decide)⟩

/-- C5 as stated is false: with the full cholera picture (posterior 2.818,
stored as 1.0 after the clamp), adding the second pathognomonic sign
`sunken_eyes` leaves the stored pre-normalization score at exactly 1.0 — no
strict increase. -/
theorem C5_counterexample :
    ¬ (probOf (disease_probabilities_raw exampleCholeraSymptoms none none 0) "cholera" <
      probOf (disease_probabilities_raw
        (exampleCholeraSymptoms ++ [mkSymptom "sunken_eyes" 10]) none none 0) "cholera") := by
  decide

/-- C5 amended: adding a pathognomonic sign (occurring once in the disease's
pathognomonic list, not exclusionary for it, not already present, severities
in the 0–10 range) never decreases the stored pre-normalization score, and
strictly increases it whenever the without-call's stored score is below the
1.0 clamp. -/
theorem C5_amended (S : List SymptomFeature) (pc : Option PatientContext)
    (ec : Option EnvironmentalContext) (month : Fin 12) (idx : Nat)
    (sig : DiseaseSignature) (pSym : SymptomFeature)
    (hidx : idx < 6)
    (henv : ∀ kv ∈ sig.environmental_correlation, 0 ≤ kv.2)
    (hdem : ∀ kv ∈ sig.demographic_risk, 0 ≤ kv.2)
    (hcount : sig.pathognomonic_signs.count pSym.name = 1)
    (hne : pSym.name ∉ sig.exclusionary_symptoms)
    (hnm : pSym.name ∉ S.map (·.name))
    (hsev : ∀ s ∈ S, 0 ≤ s.severity ∧ s.severity ≤ 10)
    (hps0 : 0 ≤ pSym.severity) (hps10 : pSym.severity ≤ 10) :
    rawDiseaseScore S pc ec month idx sig ≤
      rawDiseaseScore (S ++ [pSym]) pc ec month idx sig ∧
    (rawDiseaseScore S pc ec month idx sig < 1 →
      rawDiseaseScore S pc ec month idx sig <
        rawDiseaseScore (S ++ [pSym]) pc ec month idx sig) := by
  have hnames : (S ++ [pSym]).map (·.name) = S.map (·.name) ++ [pSym.name] := by simp
  have hpen : sig.exclusionary_symptoms.countP
      (fun e => ((S ++ [pSym]).map (·.name)).contains e) =
      sig.exclusionary_symptoms.countP (fun e => (S.map (·.name)).contains e) := by
    rw [hnames, countP_contains_append_same _ _ _ hne]
  have hboost : sig.pathognomonic_signs.countP
      (fun g => ((S ++ [pSym]).map (·.name)).contains g) =
      sig.pathognomonic_signs.countP (fun g => (S.map (·.name)).contains g) + 1 := by
    rw [hnames, countP_contains_append _ _ _ hnm, hcount]
  -- clinical-evidence comparison: ce_S ≤ A_S ≤ A_with ≤ 2 · ce_with
  have hA_S0 : 0 ≤ matchRatio sig.primary_symptoms (S.map (·.name)) * (7/10) +
      matchRatio sig.secondary_symptoms (S.map (·.name)) * (3/10) := by
    have h1 := matchRatio_nonneg sig.primary_symptoms (S.map (·.name))
    have h2 := matchRatio_nonneg sig.secondary_symptoms (S.map (·.name))
    nlinarith
  have hAmono : matchRatio sig.primary_symptoms (S.map (·.name)) * (7/10) +
      matchRatio sig.secondary_symptoms (S.map (·.name)) * (3/10) ≤
      matchRatio sig.primary_symptoms (S.map (·.name) ++ [pSym.name]) * (7/10) +
      matchRatio sig.secondary_symptoms (S.map (·.name) ++ [pSym.name]) * (3/10) := by
    have h1 := matchRatio_mono_append sig.primary_symptoms (S.map (·.name)) pSym.name
    have h2 := matchRatio_mono_append sig.secondary_symptoms (S.map (·.name)) pSym.name
    nlinarith
  have hswS : severityWeightOf S ≤ 1 :=
    severityWeightOf_le_one S (fun s hs => (hsev s hs).2)
  have hswW : (1/2) ≤ severityWeightOf (S ++ [pSym]) := by
    apply severityWeightOf_ge_half
    intro s hs
    rcases List.mem_append.mp hs with h | h
    · exact (hsev s h).1
    · simp only [List.mem_singleton] at h
      rw [h]; exact hps0
  have hce : _calculate_clinical_evidence S sig ≤
      2 * _calculate_clinical_evidence (S ++ [pSym]) sig := by
    simp only [_calculate_clinical_evidence]
    rw [hnames]
    have hswS0 : (0:ℚ) ≤ severityWeightOf S := by
      have := severityWeightOf_ge_half S (fun s hs => (hsev s hs).1)
      linarith
    nlinarith
  have hprior := priorScore_pos pc ec month idx sig hidx henv hdem
  -- posterior comparison
  have hpostlt : posteriorScore S pc ec month idx sig <
      posteriorScore (S ++ [pSym]) pc ec month idx sig := by
    rw [posteriorScore_eq, posteriorScore_eq, hpen, hboost, pow_succ]
    have hF : (0:ℚ) < (1/10) ^ (sig.exclusionary_symptoms.countP
        (fun e => (S.map (·.name)).contains e)) *
        2 ^ (sig.pathognomonic_signs.countP
        (fun g => (S.map (·.name)).contains g)) := by positivity
    have hbaselt : _calculate_clinical_evidence S sig * (7/10) +
        priorScore pc ec month idx sig * (3/10) <
        2 * (_calculate_clinical_evidence (S ++ [pSym]) sig * (7/10) +
          priorScore pc ec month idx sig * (3/10)) := by nlinarith
    nlinarith
  constructor
  · exact min_le_min (le_of_lt hpostlt) (le_refl 1)
  · intro hlt1
    unfold rawDiseaseScore at hlt1 ⊢
    have hps1 : posteriorScore S pc ec month idx sig < 1 := by
      by_contra hge
      push_neg at hge
      rw [min_eq_right hge] at hlt1
      exact lt_irrefl _ hlt1
    rw [min_eq_left (le_of_lt hps1)]
    exact lt_min hpostlt hps1

/-- Witness for C5 amended: one cholera primary symptom at severity 5 plus
the pathognomonic `sunken_eyes` at severity 5. -/
theorem C5_amended_witness :
    ((0:Nat) < 6 ∧
      (∀ kv ∈ (sigOf "cholera").environmental_correlation, 0 ≤ kv.2) ∧
      (∀ kv ∈ (sigOf "cholera").demographic_risk, 0 ≤ kv.2) ∧
      (sigOf "cholera").pathognomonic_signs.count "sunken_eyes" = 1 ∧
      "sunken_eyes" ∉ (sigOf "cholera").exclusionary_symptoms ∧
      "sunken_eyes" ∉ [mkSymptom "watery_diarrhea" 5].map (·.name) ∧
      (∀ s ∈ [mkSymptom "watery_diarrhea" 5], 0 ≤ s.severity ∧ s.severity ≤ 10) ∧
      rawDiseaseScore [mkSymptom "watery_diarrhea" 5] none none 0 0 (sigOf "cholera") < 1) ∧
    rawDiseaseScore [mkSymptom "watery_diarrhea" 5] none none 0 0 (sigOf "cholera") <
      rawDiseaseScore ([mkSymptom "watery_diarrhea" 5] ++ [mkSymptom "sunken_eyes" 5])
        none none 0 0 (sigOf "cholera") :=
  ⟨⟨by decide, by decide, by decide, by decide, by decide, by decide, by decide, by decide⟩,
    (C5_amended [mkSymptom "watery_diarrhea" 5] none none 0 0 (sigOf "cholera")
      (mkSymptom "sunken_eyes" 5) (by decide) (by decide) (by decide) (by decide)
      (by decide) (by decide) (by decide) (by decide) (by decide)).2 (by decide)⟩

/-- C6: evaluating the code at the spec scenario's input `"slight headache"`:
extraction yields a single `headache` mention, but with severity 5.0 (the
base severity can only be raised — `max(5.0, ·)` — and the `slightly|mildly`
patterns do not even match the word `slight`), and the overall severity
assessment is `"Medium"`, not the claimed severity ≤ 3 with `"Low"`. -/
theorem C6_divergence :
    extract_symptoms_from_text "slight headache" none =
      [{ name := "headache", severity := 5, duration_hours := 24, progression := "stable",
         confidence := (8/10), temporal_pattern := "acute" }] ∧
    severity_assessment_of (classify_disease "slight headache" none none 0) = "Medium" := by
  decide

/-- C7 as stated is false for the classifier's extraction step:
`extract_symptoms_from_text` returns the empty list (no `general_illness`
mention) when nothing matches, e.g. on the empty message. -/
theorem C7_counterexample :
    extract_symptoms_from_text "" none = [] ∧
    ¬ ∃ s ∈ extract_symptoms_from_text "" none, s.name = "general_illness" := by
  decide

theorem foldl_congr_id {α β : Type} (L : List α) (f : β → α → β)
    (h : ∀ acc x, x ∈ L → f acc x = acc) (init : β) : L.foldl f init = init := by
  induction L generalizing init with
  | nil => rfl
  | cons x xs ih =>
    rw [List.foldl_cons, h init x (List.mem_cons_self _ _)]
    exact ih (fun acc y hy => h acc y (List.mem_cons_of_mem _ hy)) init

/-- C7 amended: it is the multilingual detector,
`detect_symptoms_multilingual`, that returns the single synthetic
`general_illness` mention (severity `'Low'`, confidence 0.5) when no symptom
of its database matches; the advanced classifier's
`extract_symptoms_from_text` instead returns the empty list, which
`classify_disease` maps to `insufficient_information`. -/
theorem C7_amended (message : String)
    (h : ∀ entry ∈ symptom_database,
      findLangMatch entry.2 (detect_language message) ((lowerStr message).toList) = none) :
    detect_symptoms_multilingual message =
      ([⟨"general_illness", "Low", (1/2), detect_language message⟩], "Low") := by
  simp only [detect_symptoms_multilingual]
  rw [foldl_congr_id]
  · rfl
  · intro acc entry hentry
    rw [h entry hentry]

/-- Witness for C7 amended at the empty message. -/
theorem C7_amended_witness :
    (∀ entry ∈ symptom_database,
      findLangMatch entry.2 (detect_language "") ((lowerStr "").toList) = none) ∧
    detect_symptoms_multilingual "" =
      ([⟨"general_illness", "Low", (1/2), detect_language ""⟩], "Low") :=
  ⟨by decide, C7_amended "" (by decide)⟩

/-- C9: the classification entry point and the synthetic weather are
deterministic.  The embedding makes the two ambient inputs explicit — the
calendar month and the process's string-hash function (fixed within a
process) — and contains no other hidden state or randomness, matching the
source, which imports no randomness and reads only `datetime.now()` and
`hash(str(·))`.  Two calls with equal text, contexts, month, hash function
and coordinates return equal results. -/
theorem C9_determinism (text₁ text₂ : String) (pc₁ pc₂ : Option PatientContext)
    (ec₁ ec₂ : Option EnvironmentalContext) (m₁ m₂ : Fin 12)
    (pyhash₁ pyhash₂ : ℚ → Int) (wm₁ wm₂ : Nat) (lat₁ lat₂ lon₁ lon₂ : ℚ)
    (ht : text₁ = text₂) (hpc : pc₁ = pc₂) (hec : ec₁ = ec₂) (hm : m₁ = m₂)
    (hh : pyhash₁ = pyhash₂) (hwm : wm₁ = wm₂) (hlat : lat₁ = lat₂) (hlon : lon₁ = lon₂) :
    classify_disease text₁ pc₁ ec₁ m₁ = classify_disease text₂ pc₂ ec₂ m₂ ∧
    get_real_time_weather pyhash₁ wm₁ lat₁ lon₁ =
      get_real_time_weather pyhash₂ wm₂ lat₂ lon₂ := by
  subst ht hpc hec hm hh hwm hlat hlon
  exact ⟨rfl, rfl⟩

/-- Witness for C9 at a concrete repeated call. -/
theorem C9_determinism_witness :
    classify_disease "fever" none none 0 = classify_disease "fever" none none 0 ∧
    get_real_time_weather (fun _ => 7) 6 25 80 =
      get_real_time_weather (fun _ => 7) 6 25 80 :=
  C9_determinism "fever" "fever" none none none none 0 0 (fun _ => 7) (fun _ => 7)
    6 6 25 25 80 80 rfl rfl rfl rfl rfl rfl rfl rfl

/-! ## Sortedness-free facts about the sorted disease list -/

theorem insertDescPair_perm (x : String × ℚ) (l : List (String × ℚ)) :
    List.Perm (insertDescPair x l) (x :: l) := by
  induction l with
  | nil => exact List.Perm.refl _
  | cons y ys ih =>
    unfold insertDescPair
    split
    · exact List.Perm.refl _
    · exact List.Perm.trans (List.Perm.cons y ih) (List.Perm.swap x y ys)

theorem sortedDiseasesOf_perm (l : List (String × ℚ)) :
    List.Perm (sortedDiseasesOf l) l := by
  suffices h : ∀ (L acc : List (String × ℚ)),
      List.Perm (L.foldl (fun acc x => insertDescPair x acc) acc) (acc ++ L) by
    simpa [sortedDiseasesOf] using h l []
  intro L
  induction L with
  | nil => intro acc; simp
  | cons x xs ih =>
    intro acc
    have h1 : List.Perm ((x :: xs).foldl (fun acc x => insertDescPair x acc) acc)
        (insertDescPair x acc ++ xs) := ih (insertDescPair x acc)
    have h2 : List.Perm (insertDescPair x acc ++ xs) ((x :: acc) ++ xs) :=
      (insertDescPair_perm x acc).append_right xs
    have h3 : List.Perm ((x :: acc) ++ xs) (acc ++ x :: xs) := List.perm_middle.symm
    exact (h1.trans h2).trans h3

theorem raw_keys (symptoms : List SymptomFeature) (pc : Option PatientContext)
    (ec : Option EnvironmentalContext) (month : Fin 12) :
    (disease_probabilities_raw symptoms pc ec month).map Prod.fst =
      disease_signatures.map Prod.fst := by
  unfold disease_probabilities_raw
  rw [List.map_map]
  rfl

theorem calculate_keys (symptoms : List SymptomFeature) (pc : Option PatientContext)
    (ec : Option EnvironmentalContext) (month : Fin 12) :
    (calculate_bayesian_probability symptoms pc ec month).map Prod.fst =
      disease_signatures.map Prod.fst := by
  simp only [calculate_bayesian_probability]
  split
  · rw [List.map_map]
    exact raw_keys symptoms pc ec month
  · exact raw_keys symptoms pc ec month

/-- The fields of the full result produced by a successful `classifySteps`. -/
theorem classifySteps_ok_fields (symptoms : List SymptomFeature)
    (pc : Option PatientContext) (ec : Option EnvironmentalContext)
    (month : Fin 12) (r : FullResult)
    (h : classifySteps symptoms pc ec month = .ok r) :
    r.severity_assessment = _assess_overall_severity symptoms ∧
    r.differential_diagnoses =
      (((sortedDiseasesOf (calculate_bayesian_probability symptoms pc ec month)).drop 1).take 3).filter
        (fun dp => dp.2 > (1/10)) ∧
    r.primary_diagnosis =
      (match sortedDiseasesOf (calculate_bayesian_probability symptoms pc ec month) with
        | [] => "unknown"
        | x :: _ => x.1) := by
  simp only [classifySteps, bind, Except.bind] at h
  rcases hconf : calculate_confidence_scores symptoms
      (calculate_bayesian_probability symptoms pc ec month) pc with e | cs
  · rw [hconf] at h; cases h
  · rw [hconf] at h
    simp only [pure, Except.pure, Except.ok.injEq] at h
    subst h
    exact ⟨rfl, rfl, rfl⟩

/-- C8: in every result of `classify_disease`, the differential-diagnosis
list has at most 3 entries, every listed entry has probability strictly
greater than 0.1, and the primary diagnosis is never listed (the sorted list
drops index 0 and the six disease keys are distinct). -/
theorem C8_differential (text : String) (pc : Option PatientContext)
    (ec : Option EnvironmentalContext) (month : Fin 12) :
    (differential_of (classify_disease text pc ec month)).length ≤ 3 ∧
    ∀ dp ∈ differential_of (classify_disease text pc ec month),
      (1/10) < dp.2 ∧ dp.1 ≠ primary_of (classify_disease text pc ec month) := by
  simp only [classify_disease]
  split
  · simp [differential_of]
  · rcases hcs : classifySteps (extract_symptoms_from_text text pc) pc ec month with e | r
    · simp [differential_of]
    · obtain ⟨_, hdiff, hprim⟩ := classifySteps_ok_fields _ _ _ _ _ hcs
      simp only [differential_of, primary_of, hdiff, hprim]
      have hperm := sortedDiseasesOf_perm
        (calculate_bayesian_probability (extract_symptoms_from_text text pc) pc ec month)
      have hnodup : ((sortedDiseasesOf (calculate_bayesian_probability
          (extract_symptoms_from_text text pc) pc ec month)).map Prod.fst).Nodup := by
        refine ((hperm.map Prod.fst).nodup_iff).mpr ?_
        rw [calculate_keys]
        decide
      rcases hsort : sortedDiseasesOf (calculate_bayesian_probability
          (extract_symptoms_from_text text pc) pc ec month) with _ | ⟨x, t⟩
      · simp
      · rw [hsort] at hnodup
        simp only [List.map_cons, List.nodup_cons] at hnodup
        constructor
        · calc ((((x :: t).drop 1).take 3).filter (fun dp => dp.2 > (1/10))).length
              ≤ (((x :: t).drop 1).take 3).length := List.length_filter_le _ _
            _ ≤ 3 := by
              rw [List.length_take]
              exact min_le_left _ _
        · intro dp hdp
          have hdp' := List.mem_filter.mp hdp
          refine ⟨by exact_mod_cast of_decide_eq_true hdp'.2, ?_⟩
          have hmem_t : dp ∈ t := List.mem_of_mem_take hdp'.1
          intro heq
          have heq' : dp.1 = x.1 := heq
          exact hnodup.1 (heq' ▸ List.mem_map_of_mem Prod.fst hmem_t)

/-- Witness for C8 at the message `"headache"`, whose differential contains
`("malaria", 253/687)` while the primary diagnosis is `"typhoid"`. -/
theorem C8_differential_witness :
    ("malaria", (253:ℚ)/687) ∈ differential_of (classify_disease "headache" none none 0) ∧
    (1/10 : ℚ) < (253:ℚ)/687 ∧
    "malaria" ≠ primary_of (classify_disease "headache" none none 0) :=
  ⟨by decide,
    ((C8_differential "headache" none none 0).2 ("malaria", (253:ℚ)/687) (by decide)).1,
    ((C8_differential "headache" none none 0).2 ("malaria", (253:ℚ)/687) (by decide)).2⟩

/-- C10: every mention produced by `extract_symptoms_from_text` has severity
in [5, 10] — the 5.0 base is only ever raised by `max` and capped at 10 —
so a nonempty extraction has average severity ≥ 5, its overall severity
assessment is never `"Low"`, and `classify_disease` never reports
`severity_assessment = "Low"`. -/
theorem C10_severity_floor (text : String) (pc : Option PatientContext)
    (ec : Option EnvironmentalContext) (month : Fin 12) :
    (∀ s ∈ extract_symptoms_from_text text pc, 5 ≤ s.severity ∧ s.severity ≤ 10) ∧
    (extract_symptoms_from_text text pc ≠ [] →
      5 ≤ listMean ((extract_symptoms_from_text text pc).map (·.severity)) ∧
      _assess_overall_severity (extract_symptoms_from_text text pc) ≠ "Low") ∧
    severity_assessment_of (classify_disease text pc ec month) ≠ "Low" := by
  have hmem : ∀ s ∈ extract_symptoms_from_text text pc,
      5 ≤ s.severity ∧ s.severity ≤ 10 := by
    unfold extract_symptoms_from_text
    refine foldl_mem_invariant symptom_keywords _ _ ?_ symptom_keywords
      (fun x hx => hx) [] (by simp)
    intro acc x s _ hs
    split at hs
    · exact Or.inl hs
    · split at hs
      · exact Or.inl hs
      · rcases List.mem_append.mp hs with h | h
        · exact Or.inl h
        · simp only [List.mem_singleton] at h
          subst h
          exact Or.inr (computeSeverity_bounds _ _)
  have hassess : ∀ (symptoms : List SymptomFeature),
      (∀ s ∈ symptoms, 5 ≤ s.severity ∧ s.severity ≤ 10) → symptoms ≠ [] →
      5 ≤ listMean (symptoms.map (·.severity)) ∧
      _assess_overall_severity symptoms ≠ "Low" := by
    intro symptoms hsy hne
    have hmean : 5 ≤ listMean (symptoms.map (·.severity)) := by
      apply le_listMean
      · simpa using hne
      · intro v hv
        obtain ⟨s, hs, rfl⟩ := List.mem_map.mp hv
        exact (hsy s hs).1
    refine ⟨hmean, ?_⟩
    simp only [_assess_overall_severity]
    rw [if_neg (by simpa [List.isEmpty_iff] using hne)]
    split
    · decide
    · split
      · decide
      · rename_i hcond
        exact absurd (Or.inr hmean) hcond
  refine ⟨hmem, fun hne => hassess _ hmem hne, ?_⟩
  simp only [classify_disease]
  split
  · simp only [severity_assessment_of]
    decide
  · rename_i hne
    rcases hcs : classifySteps (extract_symptoms_from_text text pc) pc ec month with e | r
    · simp only [severity_assessment_of]
      decide
    · obtain ⟨hsev, _, _⟩ := classifySteps_ok_fields _ _ _ _ _ hcs
      simp only [severity_assessment_of, hsev]
      exact (hassess _ hmem (by simpa [List.isEmpty_iff] using hne)).2

/-- Witness for C10 at the single-mention extraction of `"headache"`. -/
theorem C10_severity_floor_witness :
    ((⟨"headache", 5, 24, "stable", (8/10), "acute"⟩ : SymptomFeature) ∈
        extract_symptoms_from_text "headache" none ∧
      5 ≤ (⟨"headache", 5, 24, "stable", (8/10), "acute"⟩ : SymptomFeature).severity ∧
      (⟨"headache", 5, 24, "stable", (8/10), "acute"⟩ : SymptomFeature).severity ≤ 10) ∧
    (extract_symptoms_from_text "headache" none ≠ [] ∧
      5 ≤ listMean ((extract_symptoms_from_text "headache" none).map (·.severity)) ∧
      _assess_overall_severity (extract_symptoms_from_text "headache" none) ≠ "Low") :=
  ⟨⟨by decide, (C10_severity_floor "headache" none none 0).1 _ (by decide)⟩,
    ⟨by decide, (C10_severity_floor "headache" none none 0).2.1 (by decide)⟩⟩
